import Mathlib

set_option maxRecDepth 100000

/-!
Verification of the cipher-suite catalog builder
(`sslyze/plugins/openssl_cipher_suites/cipher_suites.py`).

The Python module is embedded shallowly:
* the four static tables become `List` literals in source order (Python dict
  literals have no duplicate keys here, so first-match lookup coincides with
  dict lookup);
* the external OpenSSL engine (nassl's `LegacySslClient` / `SslClient`
  `get_cipher_list`) is a parameter: a function from protocol version, engine
  variant and selection string to the returned native-name list;
* a `KeyError` raised by a dict subscript becomes `Option.none`, and the whole
  catalog build (`_parse_all_cipher_suites`) returns `none` when any lookup
  misses, mirroring the exception aborting class initialization;
* the builder is transcribed with its actual control flow: in the source the
  TLS 1.2 and TLS 1.3 blocks are indented inside the `for` loop over
  SSLv2/SSLv3/TLS1.0/TLS1.1, so they execute once per iteration; the embedding
  reproduces this and additionally records a trace of engine enumerations so
  that call counts can be stated.
-/

/-- The `TlsVersionEnum` protocol versions used by the module. -/
inductive TlsVersionEnum where
  | SSL_2_0
  | SSL_3_0
  | TLS_1_0
  | TLS_1_1
  | TLS_1_2
  | TLS_1_3
deriving DecidableEq

/-- The `CipherSuite` frozen dataclass (source lines 11-16). -/
structure CipherSuite where
  name : String
  openssl_name : String
  is_anonymous : Bool
  key_size : Nat
deriving DecidableEq

/-- Embedding of the SSLv2 native-to-RFC name table (source lines 21-31), in source order. -/
def SSLV2_OPENSSL_TO_RFC_NAMES_MAPPING : List (String × String) := [
  ("RC4-MD5", "SSL_CK_RC4_128_WITH_MD5"),
  ("EXP-RC4-MD5", "SSL_CK_RC4_128_EXPORT40_WITH_MD5"),
  ("RC2-CBC-MD5", "SSL_CK_RC2_128_CBC_WITH_MD5"),
  ("EXP-RC2-CBC-MD5", "SSL_CK_RC2_128_CBC_EXPORT40_WITH_MD5"),
  ("IDEA-CBC-MD5", "SSL_CK_IDEA_128_CBC_WITH_MD5"),
  ("DES-CBC-MD5", "SSL_CK_DES_64_CBC_WITH_MD5"),
  ("DES-CBC3-MD5", "SSL_CK_DES_192_EDE3_CBC_WITH_MD5"),
  ("RC4-64-MD5", "SSL_CK_RC4_64_WITH_MD5"),
  ("NULL-MD5", "TLS_RSA_WITH_NULL_MD5")
]

/-- Embedding of the shared SSLv3-TLS1.2 native-to-RFC name table (source lines 33-310), in source order. -/
def TLS_OPENSSL_TO_RFC_NAMES_MAPPING : List (String × String) := [
  ("NULL-MD5", "TLS_RSA_WITH_NULL_MD5"),
  ("NULL-SHA", "TLS_RSA_WITH_NULL_SHA"),
  ("EXP-RC4-MD5", "TLS_RSA_EXPORT_WITH_RC4_40_MD5"),
  ("RC4-MD5", "TLS_RSA_WITH_RC4_128_MD5"),
  ("RC4-SHA", "TLS_RSA_WITH_RC4_128_SHA"),
  ("EXP-RC2-CBC-MD5", "TLS_RSA_EXPORT_WITH_RC2_CBC_40_MD5"),
  ("IDEA-CBC-SHA", "TLS_RSA_WITH_IDEA_CBC_SHA"),
  ("EXP-DES-CBC-SHA", "TLS_RSA_EXPORT_WITH_DES40_CBC_SHA"),
  ("DES-CBC-SHA", "TLS_RSA_WITH_DES_CBC_SHA"),
  ("DES-CBC3-SHA", "TLS_RSA_WITH_3DES_EDE_CBC_SHA"),
  ("EXP-DH-DSS-DES-CBC-SHA", "TLS_DH_DSS_EXPORT_WITH_DES40_CBC_SHA"),
  ("DH-DSS-DES-CBC-SHA", "TLS_DH_DSS_WITH_DES_CBC_SHA"),
  ("DH-DSS-DES-CBC3-SHA", "TLS_DH_DSS_WITH_3DES_EDE_CBC_SHA"),
  ("EXP-DH-RSA-DES-CBC-SHA", "TLS_DH_RSA_EXPORT_WITH_DES40_CBC_SHA"),
  ("DH-RSA-DES-CBC-SHA", "TLS_DH_RSA_WITH_DES_CBC_SHA"),
  ("DH-RSA-DES-CBC3-SHA", "TLS_DH_RSA_WITH_3DES_EDE_CBC_SHA"),
  ("EXP-EDH-DSS-DES-CBC-SHA", "TLS_DHE_DSS_EXPORT_WITH_DES40_CBC_SHA"),
  ("EDH-DSS-DES-CBC-SHA", "TLS_DHE_DSS_WITH_DES_CBC_SHA"),
  ("EDH-DSS-DES-CBC3-SHA", "TLS_DHE_DSS_WITH_3DES_EDE_CBC_SHA"),
  ("EXP-EDH-RSA-DES-CBC-SHA", "TLS_DHE_RSA_EXPORT_WITH_DES40_CBC_SHA"),
  ("EDH-RSA-DES-CBC-SHA", "TLS_DHE_RSA_WITH_DES_CBC_SHA"),
  ("EDH-RSA-DES-CBC3-SHA", "TLS_DHE_RSA_WITH_3DES_EDE_CBC_SHA"),
  ("EXP-ADH-RC4-MD5", "TLS_DH_anon_EXPORT_WITH_RC4_40_MD5"),
  ("ADH-RC4-MD5", "TLS_DH_anon_WITH_RC4_128_MD5"),
  ("EXP-ADH-DES-CBC-SHA", "TLS_DH_anon_EXPORT_WITH_DES40_CBC_SHA"),
  ("ADH-DES-CBC-SHA", "TLS_DH_anon_WITH_DES_CBC_SHA"),
  ("ADH-DES-CBC3-SHA", "TLS_DH_anon_WITH_3DES_EDE_CBC_SHA"),
  ("KRB5-DES-CBC-SHA", "TLS_KRB5_WITH_DES_CBC_SHA"),
  ("KRB5-DES-CBC3-SHA", "TLS_KRB5_WITH_3DES_EDE_CBC_SHA"),
  ("KRB5-RC4-SHA", "TLS_KRB5_WITH_RC4_128_SHA"),
  ("KRB5-IDEA-CBC-SHA", "TLS_KRB5_WITH_IDEA_CBC_SHA"),
  ("KRB5-DES-CBC-MD5", "TLS_KRB5_WITH_DES_CBC_MD5"),
  ("KRB5-DES-CBC3-MD5", "TLS_KRB5_WITH_3DES_EDE_CBC_MD5"),
  ("KRB5-RC4-MD5", "TLS_KRB5_WITH_RC4_128_MD5"),
  ("KRB5-IDEA-CBC-MD5", "TLS_KRB5_WITH_IDEA_CBC_MD5"),
  ("EXP-KRB5-DES-CBC-SHA", "TLS_KRB5_EXPORT_WITH_DES_CBC_40_SHA"),
  ("EXP-KRB5-RC2-CBC-SHA", "TLS_KRB5_EXPORT_WITH_RC2_CBC_40_SHA"),
  ("EXP-KRB5-RC4-SHA", "TLS_KRB5_EXPORT_WITH_RC4_40_SHA"),
  ("EXP-KRB5-DES-CBC-MD5", "TLS_KRB5_EXPORT_WITH_DES_CBC_40_MD5"),
  ("EXP-KRB5-RC2-CBC-MD5", "TLS_KRB5_EXPORT_WITH_RC2_CBC_40_MD5"),
  ("EXP-KRB5-RC4-MD5", "TLS_KRB5_EXPORT_WITH_RC4_40_MD5"),
  ("AES128-SHA", "TLS_RSA_WITH_AES_128_CBC_SHA"),
  ("DH-DSS-AES128-SHA", "TLS_DH_DSS_WITH_AES_128_CBC_SHA"),
  ("DH-RSA-AES128-SHA", "TLS_DH_RSA_WITH_AES_128_CBC_SHA"),
  ("DHE-DSS-AES128-SHA", "TLS_DHE_DSS_WITH_AES_128_CBC_SHA"),
  ("DHE-RSA-AES128-SHA", "TLS_DHE_RSA_WITH_AES_128_CBC_SHA"),
  ("ADH-AES128-SHA", "TLS_DH_anon_WITH_AES_128_CBC_SHA"),
  ("AES256-SHA", "TLS_RSA_WITH_AES_256_CBC_SHA"),
  ("DH-DSS-AES256-SHA", "TLS_DH_DSS_WITH_AES_256_CBC_SHA"),
  ("DH-RSA-AES256-SHA", "TLS_DH_RSA_WITH_AES_256_CBC_SHA"),
  ("DHE-DSS-AES256-SHA", "TLS_DHE_DSS_WITH_AES_256_CBC_SHA"),
  ("DHE-RSA-AES256-SHA", "TLS_DHE_RSA_WITH_AES_256_CBC_SHA"),
  ("ADH-AES256-SHA", "TLS_DH_anon_WITH_AES_256_CBC_SHA"),
  ("NULL-SHA256", "TLS_RSA_WITH_NULL_SHA256"),
  ("AES128-SHA256", "TLS_RSA_WITH_AES_128_CBC_SHA256"),
  ("AES256-SHA256", "TLS_RSA_WITH_AES_256_CBC_SHA256"),
  ("DH-DSS-AES128-SHA256", "TLS_DH_DSS_WITH_AES_128_CBC_SHA256"),
  ("DH-RSA-AES128-SHA256", "TLS_DH_RSA_WITH_AES_128_CBC_SHA256"),
  ("DHE-DSS-AES128-SHA256", "TLS_DHE_DSS_WITH_AES_128_CBC_SHA256"),
  ("CAMELLIA128-SHA", "TLS_RSA_WITH_CAMELLIA_128_CBC_SHA"),
  ("DH-DSS-CAMELLIA128-SHA", "TLS_DH_DSS_WITH_CAMELLIA_128_CBC_SHA"),
  ("DH-RSA-CAMELLIA128-SHA", "TLS_DH_RSA_WITH_CAMELLIA_128_CBC_SHA"),
  ("DHE-DSS-CAMELLIA128-SHA", "TLS_DHE_DSS_WITH_CAMELLIA_128_CBC_SHA"),
  ("DHE-RSA-CAMELLIA128-SHA", "TLS_DHE_RSA_WITH_CAMELLIA_128_CBC_SHA"),
  ("ADH-CAMELLIA128-SHA", "TLS_DH_anon_WITH_CAMELLIA_128_CBC_SHA"),
  ("EXP1024-DES-CBC-SHA", "TLS_RSA_EXPORT1024_WITH_DES_CBC_SHA"),
  ("EXP1024-DHE-DSS-DES-CBC-SHA", "TLS_DHE_DSS_EXPORT1024_WITH_DES_CBC_SHA"),
  ("EXP1024-RC4-SHA", "TLS_RSA_EXPORT1024_WITH_RC4_56_SHA"),
  ("EXP1024-RC4-MD5", "TLS_RSA_EXPORT1024_WITH_RC4_56_MD5"),
  ("EXP1024-RC2-CBC-MD5", "TLS_RSA_EXPORT1024_WITH_RC2_CBC_56_MD5"),
  ("EXP1024-DHE-DSS-RC4-SHA", "TLS_DHE_DSS_EXPORT1024_WITH_RC4_56_SHA"),
  ("DHE-DSS-RC4-SHA", "TLS_DHE_DSS_WITH_RC4_128_SHA"),
  ("DHE-RSA-AES128-SHA256", "TLS_DHE_RSA_WITH_AES_128_CBC_SHA256"),
  ("DH-DSS-AES256-SHA256", "TLS_DH_DSS_WITH_AES_256_CBC_SHA256"),
  ("DH-RSA-AES256-SHA256", "TLS_DH_RSA_WITH_AES_256_CBC_SHA256"),
  ("DHE-DSS-AES256-SHA256", "TLS_DHE_DSS_WITH_AES_256_CBC_SHA256"),
  ("DHE-RSA-AES256-SHA256", "TLS_DHE_RSA_WITH_AES_256_CBC_SHA256"),
  ("ADH-AES128-SHA256", "TLS_DH_anon_WITH_AES_128_CBC_SHA256"),
  ("ADH-AES256-SHA256", "TLS_DH_anon_WITH_AES_256_CBC_SHA256"),
  ("GOST94-GOST89-GOST89", "TLS_GOSTR341094_WITH_28147_CNT_IMIT"),
  ("GOST2001-GOST89-GOST89", "TLS_GOSTR341001_WITH_28147_CNT_IMIT"),
  ("CAMELLIA256-SHA", "TLS_RSA_WITH_CAMELLIA_256_CBC_SHA"),
  ("DH-DSS-CAMELLIA256-SHA", "TLS_DH_DSS_WITH_CAMELLIA_256_CBC_SHA"),
  ("DH-RSA-CAMELLIA256-SHA", "TLS_DH_RSA_WITH_CAMELLIA_256_CBC_SHA"),
  ("DHE-DSS-CAMELLIA256-SHA", "TLS_DHE_DSS_WITH_CAMELLIA_256_CBC_SHA"),
  ("DHE-RSA-CAMELLIA256-SHA", "TLS_DHE_RSA_WITH_CAMELLIA_256_CBC_SHA"),
  ("ADH-CAMELLIA256-SHA", "TLS_DH_anon_WITH_CAMELLIA_256_CBC_SHA"),
  ("PSK-RC4-SHA", "TLS_PSK_WITH_RC4_128_SHA"),
  ("PSK-3DES-EDE-CBC-SHA", "TLS_PSK_WITH_3DES_EDE_CBC_SHA"),
  ("PSK-AES128-CBC-SHA", "TLS_PSK_WITH_AES_128_CBC_SHA"),
  ("PSK-AES256-CBC-SHA", "TLS_PSK_WITH_AES_256_CBC_SHA"),
  ("RSA-PSK-RC4-SHA", "TLS_RSA_PSK_WITH_RC4_128_SHA"),
  ("RSA-PSK-3DES-EDE-CBC-SHA", "TLS_RSA_PSK_WITH_3DES_EDE_CBC_SHA"),
  ("RSA-PSK-AES128-CBC-SHA", "TLS_RSA_PSK_WITH_AES_128_CBC_SHA"),
  ("RSA-PSK-AES256-CBC-SHA", "TLS_RSA_PSK_WITH_AES_256_CBC_SHA"),
  ("SEED-SHA", "TLS_RSA_WITH_SEED_CBC_SHA"),
  ("DH-DSS-SEED-SHA", "TLS_DH_DSS_WITH_SEED_CBC_SHA"),
  ("DH-RSA-SEED-SHA", "TLS_DH_RSA_WITH_SEED_CBC_SHA"),
  ("DHE-DSS-SEED-SHA", "TLS_DHE_DSS_WITH_SEED_CBC_SHA"),
  ("DHE-RSA-SEED-SHA", "TLS_DHE_RSA_WITH_SEED_CBC_SHA"),
  ("ADH-SEED-SHA", "TLS_DH_anon_WITH_SEED_CBC_SHA"),
  ("AES128-GCM-SHA256", "TLS_RSA_WITH_AES_128_GCM_SHA256"),
  ("AES256-GCM-SHA384", "TLS_RSA_WITH_AES_256_GCM_SHA384"),
  ("DHE-RSA-AES128-GCM-SHA256", "TLS_DHE_RSA_WITH_AES_128_GCM_SHA256"),
  ("DHE-RSA-AES256-GCM-SHA384", "TLS_DHE_RSA_WITH_AES_256_GCM_SHA384"),
  ("DH-RSA-AES128-GCM-SHA256", "TLS_DH_RSA_WITH_AES_128_GCM_SHA256"),
  ("DH-RSA-AES256-GCM-SHA384", "TLS_DH_RSA_WITH_AES_256_GCM_SHA384"),
  ("DHE-DSS-AES128-GCM-SHA256", "TLS_DHE_DSS_WITH_AES_128_GCM_SHA256"),
  ("DHE-DSS-AES256-GCM-SHA384", "TLS_DHE_DSS_WITH_AES_256_GCM_SHA384"),
  ("DH-DSS-AES128-GCM-SHA256", "TLS_DH_DSS_WITH_AES_128_GCM_SHA256"),
  ("DH-DSS-AES256-GCM-SHA384", "TLS_DH_DSS_WITH_AES_256_GCM_SHA384"),
  ("ADH-AES128-GCM-SHA256", "TLS_DH_anon_WITH_AES_128_GCM_SHA256"),
  ("ADH-AES256-GCM-SHA384", "TLS_DH_anon_WITH_AES_256_GCM_SHA384"),
  ("CAMELLIA128-SHA256", "TLS_RSA_WITH_CAMELLIA_128_CBC_SHA256"),
  ("DH-DSS-CAMELLIA128-SHA256", "TLS_DH_DSS_WITH_CAMELLIA_128_CBC_SHA256"),
  ("DH-RSA-CAMELLIA128-SHA256", "TLS_DH_RSA_WITH_CAMELLIA_128_CBC_SHA256"),
  ("DHE-DSS-CAMELLIA128-SHA256", "TLS_DHE_DSS_WITH_CAMELLIA_128_CBC_SHA256"),
  ("DHE-RSA-CAMELLIA128-SHA256", "TLS_DHE_RSA_WITH_CAMELLIA_128_CBC_SHA256"),
  ("ADH-CAMELLIA128-SHA256", "TLS_DH_anon_WITH_CAMELLIA_128_CBC_SHA256"),
  ("CAMELLIA256-SHA256", "TLS_RSA_WITH_CAMELLIA_256_CBC_SHA256"),
  ("DH-DSS-CAMELLIA256-SHA256", "TLS_DH_DSS_WITH_CAMELLIA_256_CBC_SHA256"),
  ("DH-RSA-CAMELLIA256-SHA256", "TLS_DH_RSA_WITH_CAMELLIA_256_CBC_SHA256"),
  ("DHE-DSS-CAMELLIA256-SHA256", "TLS_DHE_DSS_WITH_CAMELLIA_256_CBC_SHA256"),
  ("DHE-RSA-CAMELLIA256-SHA256", "TLS_DHE_RSA_WITH_CAMELLIA_256_CBC_SHA256"),
  ("ADH-CAMELLIA256-SHA256", "TLS_DH_anon_WITH_CAMELLIA_256_CBC_SHA256"),
  ("TLS_FALLBACK_SCSV", "TLS_FALLBACK_SCSV"),
  ("ECDH-ECDSA-NULL-SHA", "TLS_ECDH_ECDSA_WITH_NULL_SHA"),
  ("ECDH-ECDSA-RC4-SHA", "TLS_ECDH_ECDSA_WITH_RC4_128_SHA"),
  ("ECDH-ECDSA-DES-CBC3-SHA", "TLS_ECDH_ECDSA_WITH_3DES_EDE_CBC_SHA"),
  ("ECDH-ECDSA-AES128-SHA", "TLS_ECDH_ECDSA_WITH_AES_128_CBC_SHA"),
  ("ECDH-ECDSA-AES256-SHA", "TLS_ECDH_ECDSA_WITH_AES_256_CBC_SHA"),
  ("ECDHE-ECDSA-NULL-SHA", "TLS_ECDHE_ECDSA_WITH_NULL_SHA"),
  ("ECDHE-ECDSA-RC4-SHA", "TLS_ECDHE_ECDSA_WITH_RC4_128_SHA"),
  ("ECDHE-ECDSA-DES-CBC3-SHA", "TLS_ECDHE_ECDSA_WITH_3DES_EDE_CBC_SHA"),
  ("ECDHE-ECDSA-AES128-SHA", "TLS_ECDHE_ECDSA_WITH_AES_128_CBC_SHA"),
  ("ECDHE-ECDSA-AES256-SHA", "TLS_ECDHE_ECDSA_WITH_AES_256_CBC_SHA"),
  ("ECDH-RSA-NULL-SHA", "TLS_ECDH_RSA_WITH_NULL_SHA"),
  ("ECDH-RSA-RC4-SHA", "TLS_ECDH_RSA_WITH_RC4_128_SHA"),
  ("ECDH-RSA-DES-CBC3-SHA", "TLS_ECDH_RSA_WITH_3DES_EDE_CBC_SHA"),
  ("ECDH-RSA-AES128-SHA", "TLS_ECDH_RSA_WITH_AES_128_CBC_SHA"),
  ("ECDH-RSA-AES256-SHA", "TLS_ECDH_RSA_WITH_AES_256_CBC_SHA"),
  ("ECDHE-RSA-NULL-SHA", "TLS_ECDHE_RSA_WITH_NULL_SHA"),
  ("ECDHE-RSA-RC4-SHA", "TLS_ECDHE_RSA_WITH_RC4_128_SHA"),
  ("ECDHE-RSA-DES-CBC3-SHA", "TLS_ECDHE_RSA_WITH_3DES_EDE_CBC_SHA"),
  ("ECDHE-RSA-AES128-SHA", "TLS_ECDHE_RSA_WITH_AES_128_CBC_SHA"),
  ("ECDHE-RSA-AES256-SHA", "TLS_ECDHE_RSA_WITH_AES_256_CBC_SHA"),
  ("AECDH-NULL-SHA", "TLS_ECDH_anon_WITH_NULL_SHA"),
  ("AECDH-RC4-SHA", "TLS_ECDH_anon_WITH_RC4_128_SHA"),
  ("AECDH-DES-CBC3-SHA", "TLS_ECDH_anon_WITH_3DES_EDE_CBC_SHA"),
  ("AECDH-AES128-SHA", "TLS_ECDH_anon_WITH_AES_128_CBC_SHA"),
  ("AECDH-AES256-SHA", "TLS_ECDH_anon_WITH_AES_256_CBC_SHA"),
  ("SRP-3DES-EDE-CBC-SHA", "TLS_SRP_SHA_WITH_3DES_EDE_CBC_SHA"),
  ("SRP-RSA-3DES-EDE-CBC-SHA", "TLS_SRP_SHA_RSA_WITH_3DES_EDE_CBC_SHA"),
  ("SRP-DSS-3DES-EDE-CBC-SHA", "TLS_SRP_SHA_DSS_WITH_3DES_EDE_CBC_SHA"),
  ("SRP-AES-128-CBC-SHA", "TLS_SRP_SHA_WITH_AES_128_CBC_SHA"),
  ("SRP-RSA-AES-128-CBC-SHA", "TLS_SRP_SHA_RSA_WITH_AES_128_CBC_SHA"),
  ("SRP-DSS-AES-128-CBC-SHA", "TLS_SRP_SHA_DSS_WITH_AES_128_CBC_SHA"),
  ("SRP-AES-256-CBC-SHA", "TLS_SRP_SHA_WITH_AES_256_CBC_SHA"),
  ("SRP-RSA-AES-256-CBC-SHA", "TLS_SRP_SHA_RSA_WITH_AES_256_CBC_SHA"),
  ("SRP-DSS-AES-256-CBC-SHA", "TLS_SRP_SHA_DSS_WITH_AES_256_CBC_SHA"),
  ("ECDHE-ECDSA-AES128-SHA256", "TLS_ECDHE_ECDSA_WITH_AES_128_CBC_SHA256"),
  ("ECDHE-ECDSA-AES256-SHA384", "TLS_ECDHE_ECDSA_WITH_AES_256_CBC_SHA384"),
  ("ECDH-ECDSA-AES128-SHA256", "TLS_ECDH_ECDSA_WITH_AES_128_CBC_SHA256"),
  ("ECDH-ECDSA-AES256-SHA384", "TLS_ECDH_ECDSA_WITH_AES_256_CBC_SHA384"),
  ("ECDHE-RSA-AES128-SHA256", "TLS_ECDHE_RSA_WITH_AES_128_CBC_SHA256"),
  ("ECDHE-RSA-AES256-SHA384", "TLS_ECDHE_RSA_WITH_AES_256_CBC_SHA384"),
  ("ECDH-RSA-AES128-SHA256", "TLS_ECDH_RSA_WITH_AES_128_CBC_SHA256"),
  ("ECDH-RSA-AES256-SHA384", "TLS_ECDH_RSA_WITH_AES_256_CBC_SHA384"),
  ("ECDHE-ECDSA-AES128-GCM-SHA256", "TLS_ECDHE_ECDSA_WITH_AES_128_GCM_SHA256"),
  ("ECDHE-ECDSA-AES256-GCM-SHA384", "TLS_ECDHE_ECDSA_WITH_AES_256_GCM_SHA384"),
  ("ECDH-ECDSA-AES128-GCM-SHA256", "TLS_ECDH_ECDSA_WITH_AES_128_GCM_SHA256"),
  ("ECDH-ECDSA-AES256-GCM-SHA384", "TLS_ECDH_ECDSA_WITH_AES_256_GCM_SHA384"),
  ("ECDHE-RSA-AES128-GCM-SHA256", "TLS_ECDHE_RSA_WITH_AES_128_GCM_SHA256"),
  ("ECDHE-RSA-AES256-GCM-SHA384", "TLS_ECDHE_RSA_WITH_AES_256_GCM_SHA384"),
  ("ECDH-RSA-AES128-GCM-SHA256", "TLS_ECDH_RSA_WITH_AES_128_GCM_SHA256"),
  ("ECDH-RSA-AES256-GCM-SHA384", "TLS_ECDH_RSA_WITH_AES_256_GCM_SHA384"),
  ("ECDHE-ECDSA-CAMELLIA128-SHA256", "TLS_ECDHE_ECDSA_WITH_CAMELLIA_128_CBC_SHA256"),
  ("ECDHE-ECDSA-CAMELLIA256-SHA384", "TLS_ECDHE_ECDSA_WITH_CAMELLIA_256_CBC_SHA384"),
  ("ECDH-ECDSA-CAMELLIA128-SHA256", "TLS_ECDH_ECDSA_WITH_CAMELLIA_128_CBC_SHA256"),
  ("ECDH-ECDSA-CAMELLIA256-SHA384", "TLS_ECDH_ECDSA_WITH_CAMELLIA_256_CBC_SHA384"),
  ("ECDHE-RSA-CAMELLIA128-SHA256", "TLS_ECDHE_RSA_WITH_CAMELLIA_128_CBC_SHA256"),
  ("ECDHE-RSA-CAMELLIA256-SHA384", "TLS_ECDHE_RSA_WITH_CAMELLIA_256_CBC_SHA384"),
  ("ECDH-RSA-CAMELLIA128-SHA256", "TLS_ECDH_RSA_WITH_CAMELLIA_128_CBC_SHA256"),
  ("ECDH-RSA-CAMELLIA256-SHA384", "TLS_ECDH_RSA_WITH_CAMELLIA_256_CBC_SHA384"),
  ("ECDHE-RSA-CHACHA20-POLY1305", "TLS_ECDHE_RSA_WITH_CHACHA20_POLY1305_SHA256"),
  ("ECDHE-ECDSA-CHACHA20-POLY1305", "TLS_ECDHE_ECDSA_WITH_CHACHA20_POLY1305_SHA256"),
  ("DHE-RSA-CHACHA20-POLY1305", "TLS_DHE_RSA_WITH_CHACHA20_POLY1305_SHA256"),
  ("ECDHE-RSA-CHACHA20-POLY1305-OLD", "OLD_TLS_ECDHE_RSA_WITH_CHACHA20_POLY1305_SHA256"),
  ("ECDHE-ECDSA-CHACHA20-POLY1305-OLD", "OLD_TLS_ECDHE_ECDSA_WITH_CHACHA20_POLY1305_SHA256"),
  ("DHE-RSA-CHACHA20-POLY1305-OLD", "OLD_TLS_DHE_RSA_WITH_CHACHA20_POLY1305_SHA256"),
  ("DHE-RSA-DES-CBC3-SHA", "TLS_DHE_RSA_WITH_3DES_EDE_CBC_SHA"),
  ("DHE-DSS-DES-CBC3-SHA", "TLS_DHE_DSS_WITH_3DES_EDE_CBC_SHA"),
  ("AES128-CCM", "TLS_RSA_WITH_AES_128_CCM"),
  ("AES256-CCM", "TLS_RSA_WITH_AES_256_CCM"),
  ("DHE-RSA-AES128-CCM", "TLS_DHE_RSA_WITH_AES_128_CCM"),
  ("DHE-RSA-AES256-CCM", "TLS_DHE_RSA_WITH_AES_256_CCM"),
  ("AES128-CCM8", "TLS_RSA_WITH_AES_128_CCM_8"),
  ("AES256-CCM8", "TLS_RSA_WITH_AES_256_CCM_8"),
  ("DHE-RSA-AES128-CCM8", "TLS_DHE_RSA_WITH_AES_128_CCM_8"),
  ("DHE-RSA-AES256-CCM8", "TLS_DHE_RSA_WITH_AES_256_CCM_8"),
  ("ECDHE-ECDSA-AES128-CCM", "TLS_ECDHE_ECDSA_WITH_AES_128_CCM"),
  ("ECDHE-ECDSA-AES256-CCM", "TLS_ECDHE_ECDSA_WITH_AES_256_CCM"),
  ("ECDHE-ECDSA-AES128-CCM8", "TLS_ECDHE_ECDSA_WITH_AES_128_CCM_8"),
  ("ECDHE-ECDSA-AES256-CCM8", "TLS_ECDHE_ECDSA_WITH_AES_256_CCM_8"),
  ("ARIA128-GCM-SHA256", "TLS_RSA_WITH_ARIA_128_GCM_SHA256"),
  ("ARIA256-GCM-SHA384", "TLS_RSA_WITH_ARIA_256_GCM_SHA384"),
  ("DHE-DSS-ARIA128-GCM-SHA256", "TLS_DHE_DSS_WITH_ARIA_128_GCM_SHA256"),
  ("DHE-DSS-ARIA256-GCM-SHA384", "TLS_DHE_DSS_WITH_ARIA_256_GCM_SHA384"),
  ("DHE-PSK-3DES-EDE-CBC-SHA", "TLS_DHE_PSK_WITH_3DES_EDE_CBC_SHA"),
  ("DHE-PSK-AES128-CBC-SHA", "TLS_DHE_PSK_WITH_AES_128_CBC_SHA"),
  ("DHE-PSK-AES128-CBC-SHA256", "TLS_DHE_PSK_WITH_AES_128_CBC_SHA256"),
  ("DHE-PSK-AES128-CCM", "TLS_DHE_PSK_WITH_AES_128_CCM"),
  ("DHE-PSK-AES128-CCM8", "TLS_PSK_DHE_WITH_AES_128_CCM_8"),
  ("DHE-PSK-AES128-GCM-SHA256", "TLS_DHE_PSK_WITH_AES_128_GCM_SHA256"),
  ("DHE-PSK-AES256-CBC-SHA", "TLS_DHE_PSK_WITH_AES_256_CBC_SHA"),
  ("DHE-PSK-AES256-CBC-SHA384", "TLS_DHE_PSK_WITH_AES_256_CBC_SHA384"),
  ("DHE-PSK-AES256-CCM", "TLS_DHE_PSK_WITH_AES_256_CCM"),
  ("DHE-PSK-AES256-CCM8", "TLS_PSK_DHE_WITH_AES_256_CCM_8"),
  ("DHE-PSK-AES256-GCM-SHA384", "TLS_DHE_PSK_WITH_AES_256_GCM_SHA384"),
  ("DHE-PSK-ARIA128-GCM-SHA256", "TLS_DHE_PSK_WITH_ARIA_128_GCM_SHA256"),
  ("DHE-PSK-ARIA256-GCM-SHA384", "TLS_DHE_PSK_WITH_ARIA_256_GCM_SHA384"),
  ("DHE-PSK-CAMELLIA128-SHA256", "TLS_DHE_PSK_WITH_CAMELLIA_128_CBC_SHA256"),
  ("DHE-PSK-CAMELLIA256-SHA384", "TLS_DHE_PSK_WITH_CAMELLIA_256_CBC_SHA384"),
  ("DHE-PSK-CHACHA20-POLY1305", "TLS_DHE_PSK_WITH_CHACHA20_POLY1305_SHA256"),
  ("DHE-PSK-NULL-SHA", "TLS_DHE_PSK_WITH_NULL_SHA"),
  ("DHE-PSK-NULL-SHA256", "TLS_DHE_PSK_WITH_NULL_SHA256"),
  ("DHE-PSK-NULL-SHA384", "TLS_DHE_PSK_WITH_NULL_SHA384"),
  ("DHE-PSK-RC4-SHA", "TLS_DHE_PSK_WITH_RC4_128_SHA"),
  ("DHE-RSA-ARIA128-GCM-SHA256", "TLS_DHE_RSA_WITH_ARIA_128_GCM_SHA256"),
  ("DHE-RSA-ARIA256-GCM-SHA384", "TLS_DHE_RSA_WITH_ARIA_256_GCM_SHA384"),
  ("ECDHE-ARIA128-GCM-SHA256", "TLS_ECDHE_RSA_WITH_ARIA_128_GCM_SHA256"),
  ("ECDHE-ARIA256-GCM-SHA384", "TLS_ECDHE_RSA_WITH_ARIA_256_GCM_SHA384"),
  ("ECDHE-ECDSA-ARIA128-GCM-SHA256", "TLS_ECDHE_ECDSA_WITH_ARIA_128_GCM_SHA256"),
  ("ECDHE-ECDSA-ARIA256-GCM-SHA384", "TLS_ECDHE_ECDSA_WITH_ARIA_256_GCM_SHA384"),
  ("ECDHE-PSK-3DES-EDE-CBC-SHA", "TLS_ECDHE_PSK_WITH_3DES_EDE_CBC_SHA"),
  ("ECDHE-PSK-AES128-CBC-SHA", "TLS_ECDHE_PSK_WITH_AES_128_CBC_SHA"),
  ("ECDHE-PSK-AES128-CBC-SHA256", "TLS_ECDHE_PSK_WITH_AES_128_CBC_SHA256"),
  ("ECDHE-PSK-AES256-CBC-SHA", "TLS_ECDHE_PSK_WITH_AES_256_CBC_SHA"),
  ("ECDHE-PSK-AES256-CBC-SHA384", "TLS_ECDHE_PSK_WITH_AES_256_CBC_SHA384"),
  ("ECDHE-PSK-CAMELLIA128-SHA256", "TLS_ECDHE_PSK_WITH_CAMELLIA_128_CBC_SHA256"),
  ("ECDHE-PSK-CAMELLIA256-SHA384", "TLS_ECDHE_PSK_WITH_CAMELLIA_256_CBC_SHA384"),
  ("ECDHE-PSK-CHACHA20-POLY1305", "TLS_ECDHE_PSK_WITH_CHACHA20_POLY1305_SHA256"),
  ("ECDHE-PSK-NULL-SHA", "TLS_ECDHE_PSK_WITH_NULL_SHA"),
  ("ECDHE-PSK-NULL-SHA256", "TLS_ECDHE_PSK_WITH_NULL_SHA256"),
  ("ECDHE-PSK-NULL-SHA384", "TLS_ECDHE_PSK_WITH_NULL_SHA384"),
  ("ECDHE-PSK-RC4-SHA", "TLS_ECDHE_PSK_WITH_RC4_128_SHA"),
  ("GOST2001-NULL-GOST94", "TLS_GOSTR341001_WITH_NULL_GOSTR3411"),
  ("GOST94-NULL-GOST94", "TLS_GOSTR341094_WITH_NULL_GOSTR3411"),
  ("PSK-AES128-CBC-SHA256", "TLS_PSK_WITH_AES_128_CBC_SHA256"),
  ("PSK-AES128-CCM", "TLS_PSK_WITH_AES_128_CCM"),
  ("PSK-AES128-CCM8", "TLS_PSK_WITH_AES_128_CCM_8"),
  ("PSK-AES128-GCM-SHA256", "TLS_PSK_WITH_AES_128_GCM_SHA256"),
  ("PSK-AES256-CBC-SHA384", "TLS_PSK_WITH_AES_256_CBC_SHA384"),
  ("PSK-AES256-CCM", "TLS_PSK_WITH_AES_256_CCM"),
  ("PSK-AES256-CCM8", "TLS_PSK_WITH_AES_256_CCM_8"),
  ("PSK-AES256-GCM-SHA384", "TLS_PSK_WITH_AES_256_GCM_SHA384"),
  ("PSK-ARIA128-GCM-SHA256", "TLS_PSK_WITH_ARIA_128_GCM_SHA256"),
  ("PSK-ARIA256-GCM-SHA384", "TLS_PSK_WITH_ARIA_256_GCM_SHA384"),
  ("PSK-CAMELLIA128-SHA256", "TLS_PSK_WITH_CAMELLIA_128_CBC_SHA256"),
  ("PSK-CAMELLIA256-SHA384", "TLS_PSK_WITH_CAMELLIA_256_CBC_SHA384"),
  ("PSK-CHACHA20-POLY1305", "TLS_PSK_WITH_CHACHA20_POLY1305_SHA256"),
  ("PSK-NULL-SHA", "TLS_PSK_WITH_NULL_SHA"),
  ("PSK-NULL-SHA256", "TLS_PSK_WITH_NULL_SHA256"),
  ("PSK-NULL-SHA384", "TLS_PSK_WITH_NULL_SHA384"),
  ("RSA-PSK-AES128-CBC-SHA256", "TLS_RSA_PSK_WITH_AES_128_CBC_SHA256"),
  ("RSA-PSK-AES128-GCM-SHA256", "TLS_RSA_PSK_WITH_AES_128_GCM_SHA256"),
  ("RSA-PSK-AES256-CBC-SHA384", "TLS_RSA_PSK_WITH_AES_256_CBC_SHA384"),
  ("RSA-PSK-AES256-GCM-SHA384", "TLS_RSA_PSK_WITH_AES_256_GCM_SHA384"),
  ("RSA-PSK-ARIA128-GCM-SHA256", "TLS_RSA_PSK_WITH_ARIA_128_GCM_SHA256"),
  ("RSA-PSK-ARIA256-GCM-SHA384", "TLS_RSA_PSK_WITH_ARIA_256_GCM_SHA384"),
  ("RSA-PSK-CAMELLIA128-SHA256", "TLS_RSA_PSK_WITH_CAMELLIA_128_CBC_SHA256"),
  ("RSA-PSK-CAMELLIA256-SHA384", "TLS_RSA_PSK_WITH_CAMELLIA_256_CBC_SHA384"),
  ("RSA-PSK-CHACHA20-POLY1305", "TLS_RSA_PSK_WITH_CHACHA20_POLY1305_SHA256"),
  ("RSA-PSK-NULL-SHA", "TLS_RSA_PSK_WITH_NULL_SHA"),
  ("RSA-PSK-NULL-SHA256", "TLS_RSA_PSK_WITH_NULL_SHA256"),
  ("RSA-PSK-NULL-SHA384", "TLS_RSA_PSK_WITH_NULL_SHA384")
]

/-- Embedding of the global RFC-name-to-key-size table (source lines 322-558), in source order. -/
def RFC_NAME_TO_KEY_SIZE_MAPPING : List (String × Nat) := [
  ("TLS_RSA_WITH_NULL_MD5", 0),
  ("TLS_RSA_WITH_NULL_SHA", 0),
  ("TLS_RSA_WITH_AES_128_CBC_SHA", 128),
  ("TLS_DHE_DSS_WITH_AES_128_CBC_SHA", 128),
  ("TLS_DHE_RSA_WITH_AES_128_CBC_SHA", 128),
  ("TLS_DH_anon_WITH_AES_128_CBC_SHA", 128),
  ("TLS_RSA_WITH_AES_256_CBC_SHA", 256),
  ("TLS_DHE_DSS_WITH_AES_256_CBC_SHA", 256),
  ("TLS_DHE_RSA_WITH_AES_256_CBC_SHA", 256),
  ("TLS_DH_anon_WITH_AES_256_CBC_SHA", 256),
  ("TLS_RSA_WITH_NULL_SHA256", 0),
  ("TLS_RSA_WITH_AES_128_CBC_SHA256", 128),
  ("TLS_RSA_WITH_AES_256_CBC_SHA256", 256),
  ("TLS_DHE_DSS_WITH_AES_128_CBC_SHA256", 128),
  ("TLS_RSA_WITH_CAMELLIA_128_CBC_SHA", 128),
  ("TLS_DHE_DSS_WITH_CAMELLIA_128_CBC_SHA", 128),
  ("TLS_DHE_RSA_WITH_CAMELLIA_128_CBC_SHA", 128),
  ("TLS_DH_anon_WITH_CAMELLIA_128_CBC_SHA", 128),
  ("TLS_DHE_RSA_WITH_AES_128_CBC_SHA256", 128),
  ("TLS_DHE_DSS_WITH_AES_256_CBC_SHA256", 256),
  ("TLS_DHE_RSA_WITH_AES_256_CBC_SHA256", 256),
  ("TLS_DH_anon_WITH_AES_128_CBC_SHA256", 128),
  ("TLS_DH_anon_WITH_AES_256_CBC_SHA256", 256),
  ("TLS_RSA_WITH_CAMELLIA_256_CBC_SHA", 256),
  ("TLS_DHE_DSS_WITH_CAMELLIA_256_CBC_SHA", 256),
  ("TLS_DHE_RSA_WITH_CAMELLIA_256_CBC_SHA", 256),
  ("TLS_DH_anon_WITH_CAMELLIA_256_CBC_SHA", 256),
  ("TLS_PSK_WITH_AES_128_CBC_SHA", 128),
  ("TLS_PSK_WITH_AES_256_CBC_SHA", 256),
  ("TLS_RSA_PSK_WITH_AES_128_CBC_SHA", 128),
  ("TLS_RSA_PSK_WITH_AES_256_CBC_SHA", 256),
  ("TLS_RSA_WITH_SEED_CBC_SHA", 128),
  ("TLS_DHE_DSS_WITH_SEED_CBC_SHA", 128),
  ("TLS_DHE_RSA_WITH_SEED_CBC_SHA", 128),
  ("TLS_DH_anon_WITH_SEED_CBC_SHA", 128),
  ("TLS_RSA_WITH_AES_128_GCM_SHA256", 128),
  ("TLS_RSA_WITH_AES_256_GCM_SHA384", 256),
  ("TLS_DHE_RSA_WITH_AES_128_GCM_SHA256", 128),
  ("TLS_DHE_RSA_WITH_AES_256_GCM_SHA384", 256),
  ("TLS_DHE_DSS_WITH_AES_128_GCM_SHA256", 128),
  ("TLS_DHE_DSS_WITH_AES_256_GCM_SHA384", 256),
  ("TLS_DH_anon_WITH_AES_128_GCM_SHA256", 128),
  ("TLS_DH_anon_WITH_AES_256_GCM_SHA384", 256),
  ("TLS_RSA_WITH_CAMELLIA_128_CBC_SHA256", 128),
  ("TLS_DHE_DSS_WITH_CAMELLIA_128_CBC_SHA256", 128),
  ("TLS_DHE_RSA_WITH_CAMELLIA_128_CBC_SHA256", 128),
  ("TLS_DH_anon_WITH_CAMELLIA_128_CBC_SHA256", 128),
  ("TLS_RSA_WITH_CAMELLIA_256_CBC_SHA256", 256),
  ("TLS_DHE_DSS_WITH_CAMELLIA_256_CBC_SHA256", 256),
  ("TLS_DHE_RSA_WITH_CAMELLIA_256_CBC_SHA256", 256),
  ("TLS_DH_anon_WITH_CAMELLIA_256_CBC_SHA256", 256),
  ("TLS_ECDHE_ECDSA_WITH_NULL_SHA", 0),
  ("TLS_ECDHE_ECDSA_WITH_AES_128_CBC_SHA", 128),
  ("TLS_ECDHE_ECDSA_WITH_AES_256_CBC_SHA", 256),
  ("TLS_ECDHE_RSA_WITH_NULL_SHA", 0),
  ("TLS_ECDHE_RSA_WITH_AES_128_CBC_SHA", 128),
  ("TLS_ECDHE_RSA_WITH_AES_256_CBC_SHA", 256),
  ("TLS_ECDH_anon_WITH_NULL_SHA", 0),
  ("TLS_ECDH_anon_WITH_AES_128_CBC_SHA", 128),
  ("TLS_ECDH_anon_WITH_AES_256_CBC_SHA", 256),
  ("TLS_SRP_SHA_WITH_AES_128_CBC_SHA", 128),
  ("TLS_SRP_SHA_RSA_WITH_AES_128_CBC_SHA", 128),
  ("TLS_SRP_SHA_DSS_WITH_AES_128_CBC_SHA", 128),
  ("TLS_SRP_SHA_WITH_AES_256_CBC_SHA", 256),
  ("TLS_SRP_SHA_RSA_WITH_AES_256_CBC_SHA", 256),
  ("TLS_SRP_SHA_DSS_WITH_AES_256_CBC_SHA", 256),
  ("TLS_ECDHE_ECDSA_WITH_AES_128_CBC_SHA256", 128),
  ("TLS_ECDHE_ECDSA_WITH_AES_256_CBC_SHA384", 256),
  ("TLS_ECDHE_RSA_WITH_AES_128_CBC_SHA256", 128),
  ("TLS_ECDHE_RSA_WITH_AES_256_CBC_SHA384", 256),
  ("TLS_ECDHE_ECDSA_WITH_AES_128_GCM_SHA256", 128),
  ("TLS_ECDHE_ECDSA_WITH_AES_256_GCM_SHA384", 256),
  ("TLS_ECDHE_RSA_WITH_AES_128_GCM_SHA256", 128),
  ("TLS_ECDHE_RSA_WITH_AES_256_GCM_SHA384", 256),
  ("TLS_ECDHE_ECDSA_WITH_CAMELLIA_128_CBC_SHA256", 128),
  ("TLS_ECDHE_ECDSA_WITH_CAMELLIA_256_CBC_SHA384", 256),
  ("TLS_ECDHE_RSA_WITH_CAMELLIA_128_CBC_SHA256", 128),
  ("TLS_ECDHE_RSA_WITH_CAMELLIA_256_CBC_SHA384", 256),
  ("TLS_ECDHE_RSA_WITH_CHACHA20_POLY1305_SHA256", 256),
  ("TLS_ECDHE_ECDSA_WITH_CHACHA20_POLY1305_SHA256", 256),
  ("TLS_DHE_RSA_WITH_CHACHA20_POLY1305_SHA256", 256),
  ("RSA_WITH_AES_128_CCM", 128),
  ("RSA_WITH_AES_256_CCM", 256),
  ("DHE_RSA_WITH_AES_128_CCM", 128),
  ("TLS_DHE_RSA_WITH_AES_256_CCM", 256),
  ("RSA_WITH_AES_128_CCM_8", 128),
  ("RSA_WITH_AES_256_CCM_8", 256),
  ("DHE_RSA_WITH_AES_128_CCM_8", 128),
  ("DHE_RSA_WITH_AES_256_CCM_8", 256),
  ("ECDHE_ECDSA_WITH_AES_128_CCM", 128),
  ("ECDHE_ECDSA_WITH_AES_256_CCM", 256),
  ("ECDHE_ECDSA_WITH_AES_128_CCM_8", 128),
  ("ECDHE_ECDSA_WITH_AES_256_CCM_8", 256),
  ("TLS_RSA_WITH_RC4_128_SHA", 128),
  ("TLS_RSA_WITH_IDEA_CBC_SHA", 128),
  ("TLS_RSA_EXPORT_WITH_DES40_CBC_SHA", 40),
  ("TLS_RSA_WITH_DES_CBC_SHA", 56),
  ("TLS_RSA_WITH_3DES_EDE_CBC_SHA", 168),
  ("TLS_DH_DSS_WITH_DES_CBC_SHA", 56),
  ("TLS_DH_DSS_WITH_3DES_EDE_CBC_SHA", 168),
  ("TLS_DH_RSA_WITH_DES_CBC_SHA", 56),
  ("TLS_DH_RSA_WITH_3DES_EDE_CBC_SHA", 168),
  ("TLS_DHE_DSS_EXPORT_WITH_DES40_CBC_SHA", 40),
  ("TLS_DHE_DSS_WITH_DES_CBC_SHA", 56),
  ("TLS_DHE_DSS_WITH_3DES_EDE_CBC_SHA", 168),
  ("TLS_DHE_RSA_EXPORT_WITH_DES40_CBC_SHA", 40),
  ("TLS_DHE_RSA_WITH_DES_CBC_SHA", 56),
  ("TLS_DHE_RSA_WITH_3DES_EDE_CBC_SHA", 168),
  ("TLS_DH_anon_EXPORT_WITH_RC4_40_MD5", 40),
  ("TLS_DH_anon_WITH_RC4_128_MD5", 128),
  ("TLS_DH_anon_EXPORT_WITH_DES40_CBC_SHA", 40),
  ("TLS_DH_anon_WITH_DES_CBC_SHA", 56),
  ("TLS_DH_anon_WITH_3DES_EDE_CBC_SHA", 168),
  ("TLS_DH_DSS_WITH_AES_128_CBC_SHA", 128),
  ("TLS_DH_RSA_WITH_AES_128_CBC_SHA", 128),
  ("TLS_DH_DSS_WITH_AES_256_CBC_SHA", 256),
  ("TLS_DH_RSA_WITH_AES_256_CBC_SHA", 256),
  ("TLS_DH_DSS_WITH_AES_128_CBC_SHA256", 128),
  ("TLS_DH_RSA_WITH_AES_128_CBC_SHA256", 128),
  ("TLS_DH_DSS_WITH_CAMELLIA_128_CBC_SHA", 128),
  ("TLS_DH_RSA_WITH_CAMELLIA_128_CBC_SHA", 128),
  ("TLS_DH_DSS_WITH_AES_256_CBC_SHA256", 256),
  ("TLS_DH_RSA_WITH_AES_256_CBC_SHA256", 256),
  ("TLS_DH_DSS_WITH_CAMELLIA_256_CBC_SHA", 256),
  ("TLS_DH_RSA_WITH_CAMELLIA_256_CBC_SHA", 256),
  ("TLS_PSK_WITH_RC4_128_SHA", 128),
  ("TLS_PSK_WITH_3DES_EDE_CBC_SHA", 168),
  ("TLS_DH_DSS_WITH_SEED_CBC_SHA", 128),
  ("TLS_DH_RSA_WITH_SEED_CBC_SHA", 128),
  ("TLS_DH_RSA_WITH_AES_128_GCM_SHA256", 128),
  ("TLS_DH_RSA_WITH_AES_256_GCM_SHA384", 256),
  ("TLS_DH_DSS_WITH_AES_128_GCM_SHA256", 128),
  ("TLS_DH_DSS_WITH_AES_256_GCM_SHA384", 256),
  ("TLS_ECDH_ECDSA_WITH_NULL_SHA", 0),
  ("TLS_ECDH_ECDSA_WITH_RC4_128_SHA", 128),
  ("TLS_ECDH_ECDSA_WITH_3DES_EDE_CBC_SHA", 168),
  ("TLS_ECDH_ECDSA_WITH_AES_128_CBC_SHA", 128),
  ("TLS_ECDH_ECDSA_WITH_AES_256_CBC_SHA", 256),
  ("TLS_ECDHE_ECDSA_WITH_RC4_128_SHA", 128),
  ("TLS_ECDHE_ECDSA_WITH_3DES_EDE_CBC_SHA", 168),
  ("TLS_ECDH_RSA_WITH_NULL_SHA", 0),
  ("TLS_ECDH_RSA_WITH_RC4_128_SHA", 128),
  ("TLS_ECDH_RSA_WITH_3DES_EDE_CBC_SHA", 168),
  ("TLS_ECDH_RSA_WITH_AES_128_CBC_SHA", 128),
  ("TLS_ECDH_RSA_WITH_AES_256_CBC_SHA", 256),
  ("TLS_ECDHE_RSA_WITH_RC4_128_SHA", 128),
  ("TLS_ECDHE_RSA_WITH_3DES_EDE_CBC_SHA", 168),
  ("TLS_ECDH_anon_WITH_RC4_128_SHA", 128),
  ("TLS_ECDH_anon_WITH_3DES_EDE_CBC_SHA", 168),
  ("TLS_SRP_SHA_WITH_3DES_EDE_CBC_SHA", 168),
  ("TLS_SRP_SHA_RSA_WITH_3DES_EDE_CBC_SHA", 168),
  ("TLS_SRP_SHA_DSS_WITH_3DES_EDE_CBC_SHA", 168),
  ("TLS_ECDH_ECDSA_WITH_AES_128_CBC_SHA256", 128),
  ("TLS_ECDH_ECDSA_WITH_AES_256_CBC_SHA384", 256),
  ("TLS_ECDH_RSA_WITH_AES_128_CBC_SHA256", 128),
  ("TLS_ECDH_RSA_WITH_AES_256_CBC_SHA384", 256),
  ("TLS_ECDH_ECDSA_WITH_AES_128_GCM_SHA256", 128),
  ("TLS_ECDH_ECDSA_WITH_AES_256_GCM_SHA384", 256),
  ("TLS_ECDH_RSA_WITH_AES_128_GCM_SHA256", 128),
  ("TLS_ECDH_RSA_WITH_AES_256_GCM_SHA384", 256),
  ("TLS_RSA_EXPORT_WITH_RC4_40_MD5", 40),
  ("TLS_RSA_WITH_RC4_128_MD5", 128),
  ("TLS_RSA_EXPORT_WITH_RC2_CBC_40_MD5", 40),
  ("TLS_DH_DSS_EXPORT_WITH_DES40_CBC_SHA", 40),
  ("TLS_DH_RSA_EXPORT_WITH_DES40_CBC_SHA", 40),
  ("TLS_KRB5_WITH_RC4_128_SHA", 128),
  ("TLS_KRB5_WITH_RC4_128_MD5", 128),
  ("TLS_KRB5_EXPORT_WITH_DES_CBC_40_SHA", 40),
  ("TLS_KRB5_EXPORT_WITH_RC2_CBC_40_SHA", 40),
  ("TLS_KRB5_EXPORT_WITH_RC4_40_SHA", 40),
  ("TLS_KRB5_EXPORT_WITH_DES_CBC_40_MD5", 40),
  ("TLS_KRB5_EXPORT_WITH_RC2_CBC_40_MD5", 40),
  ("TLS_KRB5_EXPORT_WITH_RC4_40_MD5", 40),
  ("TLS_RSA_EXPORT1024_WITH_RC4_56_SHA", 56),
  ("TLS_RSA_EXPORT1024_WITH_RC4_56_MD5", 56),
  ("TLS_RSA_EXPORT1024_WITH_RC2_CBC_56_MD5", 56),
  ("TLS_DHE_DSS_EXPORT1024_WITH_RC4_56_SHA", 56),
  ("TLS_DHE_DSS_WITH_RC4_128_SHA", 128),
  ("TLS_RSA_PSK_WITH_RC4_128_SHA", 128),
  ("TLS_DH_DSS_WITH_CAMELLIA_128_CBC_SHA256", 128),
  ("TLS_DH_RSA_WITH_CAMELLIA_128_CBC_SHA256", 128),
  ("TLS_DH_DSS_WITH_CAMELLIA_256_CBC_SHA256", 256),
  ("TLS_DH_RSA_WITH_CAMELLIA_256_CBC_SHA256", 256),
  ("TLS_ECDH_ECDSA_WITH_CAMELLIA_128_CBC_SHA256", 128),
  ("TLS_ECDH_ECDSA_WITH_CAMELLIA_256_CBC_SHA384", 256),
  ("TLS_ECDH_RSA_WITH_CAMELLIA_128_CBC_SHA256", 128),
  ("TLS_ECDH_RSA_WITH_CAMELLIA_256_CBC_SHA384", 256),
  ("OLD_TLS_ECDHE_RSA_WITH_CHACHA20_POLY1305_SHA256", 256),
  ("OLD_TLS_ECDHE_ECDSA_WITH_CHACHA20_POLY1305_SHA256", 256),
  ("OLD_TLS_DHE_RSA_WITH_CHACHA20_POLY1305_SHA256", 256),
  ("TLS_KRB5_WITH_DES_CBC_SHA", 56),
  ("TLS_KRB5_WITH_3DES_EDE_CBC_SHA", 168),
  ("TLS_KRB5_WITH_IDEA_CBC_SHA", 128),
  ("TLS_KRB5_WITH_DES_CBC_MD5", 56),
  ("TLS_KRB5_WITH_3DES_EDE_CBC_MD5", 168),
  ("TLS_KRB5_WITH_IDEA_CBC_MD5", 128),
  ("TLS_RSA_EXPORT1024_WITH_DES_CBC_SHA", 56),
  ("TLS_DHE_DSS_EXPORT1024_WITH_DES_CBC_SHA", 56),
  ("TLS_GOSTR341094_WITH_28147_CNT_IMIT", 256),
  ("TLS_GOSTR341001_WITH_28147_CNT_IMIT", 256),
  ("TLS_RSA_PSK_WITH_3DES_EDE_CBC_SHA", 168),
  ("TLS_AES_256_GCM_SHA384", 256),
  ("TLS_CHACHA20_POLY1305_SHA256", 256),
  ("TLS_AES_128_GCM_SHA256", 128),
  ("TLS_ECDHE_ECDSA_WITH_ARIA_256_GCM_SHA384", 256),
  ("TLS_ECDHE_RSA_WITH_ARIA_256_GCM_SHA384", 256),
  ("TLS_DHE_DSS_WITH_ARIA_256_GCM_SHA384", 256),
  ("TLS_DHE_RSA_WITH_ARIA_256_GCM_SHA384", 256),
  ("TLS_ECDHE_ECDSA_WITH_ARIA_128_GCM_SHA256", 128),
  ("TLS_ECDHE_RSA_WITH_ARIA_128_GCM_SHA256", 128),
  ("TLS_DHE_DSS_WITH_ARIA_128_GCM_SHA256", 128),
  ("TLS_DHE_RSA_WITH_ARIA_128_GCM_SHA256", 256),
  ("TLS_RSA_WITH_ARIA_256_GCM_SHA384", 256),
  ("TLS_RSA_WITH_ARIA_128_GCM_SHA256", 128),
  ("TLS_RSA_WITH_AES_256_CCM", 256),
  ("TLS_ECDHE_ECDSA_WITH_AES_128_CCM", 128),
  ("TLS_DHE_RSA_WITH_AES_128_CCM", 128),
  ("TLS_RSA_WITH_AES_128_CCM", 128),
  ("TLS_RSA_WITH_AES_256_CCM_8", 128),
  ("TLS_ECDHE_ECDSA_WITH_AES_256_CCM", 256),
  ("TLS_ECDHE_ECDSA_WITH_AES_256_CCM_8", 256),
  ("TLS_DHE_RSA_WITH_AES_128_CCM_8", 128),
  ("TLS_DHE_RSA_WITH_AES_256_CCM_8", 256),
  ("TLS_RSA_WITH_AES_128_CCM_8", 128),
  ("TLS_ECDHE_ECDSA_WITH_AES_128_CCM_8", 128),
  ("TLS_AES_128_CCM_8_SHA256", 128),
  ("TLS_AES_128_CCM_SHA256", 128),
  ("SSL_CK_RC4_128_WITH_MD5", 128),
  ("SSL_CK_RC4_128_EXPORT40_WITH_MD5", 40),
  ("SSL_CK_RC2_128_CBC_WITH_MD5", 128),
  ("SSL_CK_RC2_128_CBC_EXPORT40_WITH_MD5", 40),
  ("SSL_CK_IDEA_128_CBC_WITH_MD5", 128),
  ("SSL_CK_DES_64_CBC_WITH_MD5", 56),
  ("SSL_CK_DES_192_EDE3_CBC_WITH_MD5", 168),
  ("SSL_CK_RC4_64_WITH_MD5", 64)
]

/-- Embedding of the hardcoded TLS 1.3 cipher suite name list (source lines 562-568). -/
def TLS_1_3_CIPHER_SUITES : List String := [
  "TLS_AES_128_GCM_SHA256",
  "TLS_AES_128_CCM_SHA256",
  "TLS_AES_256_GCM_SHA384",
  "TLS_AES_128_CCM_8_SHA256",
  "TLS_CHACHA20_POLY1305_SHA256"
]

/-- The per-version native-to-RFC table dictionary (source lines 313-319):
SSLv2 has its own table, SSLv3 through TLS 1.2 share one table, TLS 1.3 has
no entry. -/
def OPENSSL_TO_RFC_NAMES_MAPPING : TlsVersionEnum → Option (List (String × String))
  | TlsVersionEnum.SSL_2_0 => some SSLV2_OPENSSL_TO_RFC_NAMES_MAPPING
  | TlsVersionEnum.SSL_3_0 => some TLS_OPENSSL_TO_RFC_NAMES_MAPPING
  | TlsVersionEnum.TLS_1_0 => some TLS_OPENSSL_TO_RFC_NAMES_MAPPING
  | TlsVersionEnum.TLS_1_1 => some TLS_OPENSSL_TO_RFC_NAMES_MAPPING
  | TlsVersionEnum.TLS_1_2 => some TLS_OPENSSL_TO_RFC_NAMES_MAPPING
  | TlsVersionEnum.TLS_1_3 => none

/-- Substring test on character lists: Python's `pat in s` for strings. -/
def listContainsSub (pat : List Char) : List Char → Bool
  | [] => pat.isEmpty
  | c :: rest => pat.isPrefixOf (c :: rest) || listContainsSub pat rest

/-- Python's `"anon" in s` substring containment test. -/
def strContainsAnon (s : String) : Bool :=
  listContainsSub "anon".data s.data

/-- The two dict lookups plus record construction performed for each native
name inside `_parse_all_cipher_suites` (source lines 590-597 and 615-622):
look the native name up in the version's table, look the resulting RFC name
up in the key-size table, derive the anonymity flag by substring test. A
`none` result is a Python `KeyError`. -/
def translateSuite (tls_version : TlsVersionEnum) (openssl_name : String) : Option CipherSuite :=
  (OPENSSL_TO_RFC_NAMES_MAPPING tls_version).bind fun tbl =>
    (tbl.lookup openssl_name).bind fun rfc_name =>
      (RFC_NAME_TO_KEY_SIZE_MAPPING.lookup rfc_name).map fun ks =>
        { name := rfc_name, openssl_name := openssl_name,
          is_anonymous := strContainsAnon rfc_name, key_size := ks }

/-- The two OpenSSL client variants used for enumeration: `LegacySslClient`
and the modern `SslClient`. -/
inductive OpenSslVariant where
  | legacy
  | modern
deriving DecidableEq

/-- The external engine boundary: given a protocol version, a client variant
and a cipher selection string, return the native cipher-name list the engine
reports (`set_cipher_list` followed by `get_cipher_list`). The build is
parametric in this function. -/
def Engine : Type := TlsVersionEnum → OpenSslVariant → String → List String

/-- The fixed selection string used by every enumeration (source lines 574
and 604). -/
def selectionString : String := "ALL:COMPLEMENTOFALL:-PSK:-SRP"

/-- One engine enumeration call, as recorded in the build trace. -/
structure EnumEvent where
  version : TlsVersionEnum
  variant : OpenSslVariant
  selection : String
deriving DecidableEq

/-- Embedding of `_parse_all_cipher_suites_with_legacy_openssl`
(source lines 571-575). -/
def parse_all_cipher_suites_with_legacy_openssl (engine : Engine)
    (tls_version : TlsVersionEnum) : List String :=
  engine tls_version OpenSslVariant.legacy selectionString

/-- Translation of a whole native-name list; `none` as soon as one name fails
(the first `KeyError` aborts the per-version loop). -/
def translateAll (tls_version : TlsVersionEnum) : List String → Option (List CipherSuite)
  | [] => some []
  | n :: rest =>
    (translateSuite tls_version n).bind fun cs =>
      (translateAll tls_version rest).map fun l => cs :: l

/-- The per-version result container: translated records collected into a set
(Python builds a `Set[CipherSuite]`). -/
def translateAllSet (tls_version : TlsVersionEnum) (names : List String) :
    Option (Finset CipherSuite) :=
  (translateAll tls_version names).map List.toFinset

/-- The raw TLS 1.2 native-name collection of source lines 601-613: the union
of the legacy-client and modern-client enumerations, with every name occurring
in the hardcoded TLS 1.3 list skipped. -/
def tls12RawNames (engine : Engine) : List String :=
  (parse_all_cipher_suites_with_legacy_openssl engine TlsVersionEnum.TLS_1_2 ++
      engine TlsVersionEnum.TLS_1_2 OpenSslVariant.modern selectionString).filter
    (fun n => decide (n ∉ TLS_1_3_CIPHER_SUITES))

/-- The record construction of the TLS 1.3 comprehension, one name at a time. -/
def translateAll13 : List String → Option (List CipherSuite)
  | [] => some []
  | n :: rest =>
    (RFC_NAME_TO_KEY_SIZE_MAPPING.lookup n).bind fun ks =>
      (translateAll13 rest).map fun l =>
        { name := n, openssl_name := n, is_anonymous := false, key_size := ks } :: l

/-- The hardcoded TLS 1.3 entry of source lines 626-635: each of the five
names becomes a record with `openssl_name = name`, `is_anonymous = False` and
the key size looked up in the global table. -/
def tls13SetOpt : Option (Finset CipherSuite) :=
  (translateAll13 TLS_1_3_CIPHER_SUITES).map List.toFinset

/-- The catalog dictionary under construction
(`tls_version_to_cipher_suites`). -/
def Catalog : Type := TlsVersionEnum → Option (Finset CipherSuite)

/-- Dict assignment `tls_version_to_cipher_suites[v] = s`. -/
def updateCatalog (cat : Catalog) (tls_version : TlsVersionEnum)
    (s : Finset CipherSuite) : Catalog :=
  fun w => if w = tls_version then some s else cat w

/-- One iteration of the `for tls_version in [SSL_2_0, SSL_3_0, TLS_1_0,
TLS_1_1]` loop of `_parse_all_cipher_suites` (source lines 581-635). In the
source the TLS 1.2 and TLS 1.3 blocks are indented inside this loop, so every
iteration (1) enumerates and translates its own version, (2) enumerates
TLS 1.2 with both variants, filters and translates, and (3) rebuilds the
hardcoded TLS 1.3 set. The event list records every engine enumeration. -/
def buildStep (engine : Engine) (st : Option (Catalog × List EnumEvent))
    (tls_version : TlsVersionEnum) : Option (Catalog × List EnumEvent) :=
  st.bind fun p =>
    (translateAllSet tls_version
        (parse_all_cipher_suites_with_legacy_openssl engine tls_version)).bind fun s =>
      (translateAllSet TlsVersionEnum.TLS_1_2 (tls12RawNames engine)).bind fun s12 =>
        tls13SetOpt.bind fun s13 =>
          some (updateCatalog (updateCatalog (updateCatalog p.1 tls_version s)
                  TlsVersionEnum.TLS_1_2 s12) TlsVersionEnum.TLS_1_3 s13,
                p.2 ++ [⟨tls_version, OpenSslVariant.legacy, selectionString⟩,
                        ⟨TlsVersionEnum.TLS_1_2, OpenSslVariant.legacy, selectionString⟩,
                        ⟨TlsVersionEnum.TLS_1_2, OpenSslVariant.modern, selectionString⟩])

/-- The version list of the outer loop (source lines 581-586). -/
def classicVersions : List TlsVersionEnum :=
  [TlsVersionEnum.SSL_2_0, TlsVersionEnum.SSL_3_0,
   TlsVersionEnum.TLS_1_0, TlsVersionEnum.TLS_1_1]

/-- Embedding of `_parse_all_cipher_suites` (source lines 578-637), with its
enumeration trace. A `none` result models the function raising a `KeyError`. -/
def parse_all_cipher_suites (engine : Engine) : Option (Catalog × List EnumEvent) :=
  classicVersions.foldl (buildStep engine) (some (fun _ => none, []))

/-- Embedding of `CipherSuitesRepository.get_all_cipher_suites` (source lines
640-648): the catalog is built once from the engine and lookups are served
from it; `none` models the build (class initialization) having failed. -/
def get_all_cipher_suites (engine : Engine) (tls_version : TlsVersionEnum) :
    Option (Finset CipherSuite) :=
  match parse_all_cipher_suites engine with
  | none => none
  | some (cat, _) => cat tls_version

/-- The enumeration trace of one repository build. -/
def enumerationEvents (engine : Engine) : Option (List EnumEvent) :=
  (parse_all_cipher_suites engine).map (fun p => p.2)

/-- An engine returning no cipher names at all, used to instantiate
hypotheses at a concrete input. -/
def engineEmpty : Engine := fun _ _ _ => []

/-- The five TLS 1.3 records the hardcoded construction produces, written
out explicitly with the key sizes the global table assigns. -/
def tls13Finset : Finset CipherSuite :=
  [{ name := "TLS_AES_128_GCM_SHA256", openssl_name := "TLS_AES_128_GCM_SHA256",
     is_anonymous := false, key_size := 128 },
   { name := "TLS_AES_128_CCM_SHA256", openssl_name := "TLS_AES_128_CCM_SHA256",
     is_anonymous := false, key_size := 128 },
   { name := "TLS_AES_256_GCM_SHA384", openssl_name := "TLS_AES_256_GCM_SHA384",
     is_anonymous := false, key_size := 256 },
   { name := "TLS_AES_128_CCM_8_SHA256", openssl_name := "TLS_AES_128_CCM_8_SHA256",
     is_anonymous := false, key_size := 128 },
   { name := "TLS_CHACHA20_POLY1305_SHA256", openssl_name := "TLS_CHACHA20_POLY1305_SHA256",
     is_anonymous := false, key_size := 256 }].toFinset

/-- The enumeration trace of every successful build: the four-iteration loop
enumerates its own version once per iteration and re-enumerates TLS 1.2 with
both variants inside every iteration. -/
def standardTrace : List EnumEvent :=
  [⟨TlsVersionEnum.SSL_2_0, OpenSslVariant.legacy, selectionString⟩,
   ⟨TlsVersionEnum.TLS_1_2, OpenSslVariant.legacy, selectionString⟩,
   ⟨TlsVersionEnum.TLS_1_2, OpenSslVariant.modern, selectionString⟩,
   ⟨TlsVersionEnum.SSL_3_0, OpenSslVariant.legacy, selectionString⟩,
   ⟨TlsVersionEnum.TLS_1_2, OpenSslVariant.legacy, selectionString⟩,
   ⟨TlsVersionEnum.TLS_1_2, OpenSslVariant.modern, selectionString⟩,
   ⟨TlsVersionEnum.TLS_1_0, OpenSslVariant.legacy, selectionString⟩,
   ⟨TlsVersionEnum.TLS_1_2, OpenSslVariant.legacy, selectionString⟩,
   ⟨TlsVersionEnum.TLS_1_2, OpenSslVariant.modern, selectionString⟩,
   ⟨TlsVersionEnum.TLS_1_1, OpenSslVariant.legacy, selectionString⟩,
   ⟨TlsVersionEnum.TLS_1_2, OpenSslVariant.legacy, selectionString⟩,
   ⟨TlsVersionEnum.TLS_1_2, OpenSslVariant.modern, selectionString⟩]

/-- A concrete engine used to instantiate the theorems: four SSLv3 names
(including the two native spellings of DHE-RSA 3DES), a legacy and a modern
TLS 1.2 name, and a TLS 1.3 name that the modern client also reports for
TLS 1.2 (exercising the exclusion rule). -/
def engineW : Engine := fun v variant _ =>
  match v, variant with
  | TlsVersionEnum.SSL_3_0, OpenSslVariant.legacy =>
    ["ADH-AES128-SHA", "AES128-SHA", "EDH-RSA-DES-CBC3-SHA", "DHE-RSA-DES-CBC3-SHA"]
  | TlsVersionEnum.TLS_1_2, OpenSslVariant.legacy => ["AES128-GCM-SHA256"]
  | TlsVersionEnum.TLS_1_2, OpenSslVariant.modern =>
    ["TLS_AES_128_GCM_SHA256", "ECDHE-RSA-AES256-GCM-SHA384"]
  | _, _ => []

/-- The anonymous-DH record `engineW` produces for SSLv3. -/
def csADH : CipherSuite :=
  { name := "TLS_DH_anon_WITH_AES_128_CBC_SHA", openssl_name := "ADH-AES128-SHA",
    is_anonymous := true, key_size := 128 }

/-- The plain RSA record `engineW` produces for SSLv3. -/
def csAES : CipherSuite :=
  { name := "TLS_RSA_WITH_AES_128_CBC_SHA", openssl_name := "AES128-SHA",
    is_anonymous := false, key_size := 128 }

/-- The record for the old spelling of DHE-RSA 3DES. -/
def csEDH : CipherSuite :=
  { name := "TLS_DHE_RSA_WITH_3DES_EDE_CBC_SHA", openssl_name := "EDH-RSA-DES-CBC3-SHA",
    is_anonymous := false, key_size := 168 }

/-- The record for the new spelling of DHE-RSA 3DES: same canonical name as
`csEDH`, different native name. -/
def csDHE : CipherSuite :=
  { name := "TLS_DHE_RSA_WITH_3DES_EDE_CBC_SHA", openssl_name := "DHE-RSA-DES-CBC3-SHA",
    is_anonymous := false, key_size := 168 }

/-- The SSLv3 set `engineW` produces. -/
def sW3 : Finset CipherSuite := [csADH, csAES, csEDH, csDHE].toFinset

/-- The legacy-client TLS 1.2 record `engineW` produces. -/
def csGCM : CipherSuite :=
  { name := "TLS_RSA_WITH_AES_128_GCM_SHA256", openssl_name := "AES128-GCM-SHA256",
    is_anonymous := false, key_size := 128 }

/-- The modern-client TLS 1.2 record `engineW` produces. -/
def csECDHE : CipherSuite :=
  { name := "TLS_ECDHE_RSA_WITH_AES_256_GCM_SHA384",
    openssl_name := "ECDHE-RSA-AES256-GCM-SHA384", is_anonymous := false, key_size := 256 }

/-- The TLS 1.2 set `engineW` produces: the TLS 1.3 name reported by the
modern client is excluded. -/
def s12W : Finset CipherSuite := [csGCM, csECDHE].toFinset

/-- The translation of the SSLv2 native name "RC4-MD5". -/
def csRC4 : CipherSuite :=
  { name := "SSL_CK_RC4_128_WITH_MD5", openssl_name := "RC4-MD5",
    is_anonymous := false, key_size := 128 }

/-- An engine that reports a native name absent from the SSLv2 table. -/
def engineBad : Engine := fun v variant _ =>
  match v, variant with
  | TlsVersionEnum.SSL_2_0, OpenSslVariant.legacy => ["BOGUS"]
  | _, _ => []

/-- A successful association-list lookup exhibits a member pair. -/
theorem lookup_mem {α β : Type} [BEq α] [LawfulBEq α] {l : List (α × β)} {k : α} {b : β}
    (h : l.lookup k = some b) : (k, b) ∈ l := by
  obtain ⟨l₁, l₂, rfl, -⟩ := List.lookup_eq_some_iff.mp h
  simp

/-- Inversion of a successful translation: both table lookups succeeded and
the record fields are exactly the looked-up data. -/
theorem translateSuite_eq_some {tls_version : TlsVersionEnum} {n : String} {cs : CipherSuite}
    (h : translateSuite tls_version n = some cs) :
    ∃ tbl rfc_name ks,
      OPENSSL_TO_RFC_NAMES_MAPPING tls_version = some tbl ∧
      tbl.lookup n = some rfc_name ∧
      RFC_NAME_TO_KEY_SIZE_MAPPING.lookup rfc_name = some ks ∧
      cs = { name := rfc_name, openssl_name := n,
             is_anonymous := strContainsAnon rfc_name, key_size := ks } := by
  unfold translateSuite at h
  rw [Option.bind_eq_some] at h
  obtain ⟨tbl, h1, h⟩ := h
  rw [Option.bind_eq_some] at h
  obtain ⟨rfc_name, h2, h⟩ := h
  rw [Option.map_eq_some'] at h
  obtain ⟨ks, h3, h4⟩ := h
  exact ⟨tbl, rfc_name, ks, h1, h2, h3, h4.symm⟩

/-- Membership in a fully translated list: exactly the successful images of
the input names. -/
theorem translateAll_eq_some_mem {tls_version : TlsVersionEnum} {names : List String}
    {l : List CipherSuite} (h : translateAll tls_version names = some l) (cs : CipherSuite) :
    cs ∈ l ↔ ∃ n ∈ names, translateSuite tls_version n = some cs := by
  induction names generalizing l with
  | nil =>
    unfold translateAll at h
    injection h with h
    subst h
    simp
  | cons n rest ih =>
    unfold translateAll at h
    rw [Option.bind_eq_some] at h
    obtain ⟨cs0, h1, h⟩ := h
    rw [Option.map_eq_some'] at h
    obtain ⟨l0, h2, h3⟩ := h
    subst h3
    constructor
    · intro hmem
      rcases List.mem_cons.mp hmem with rfl | hm
      · exact ⟨n, List.mem_cons_self n rest, h1⟩
      · obtain ⟨m, hm1, hm2⟩ := (ih h2).mp hm
        exact ⟨m, List.mem_cons_of_mem n hm1, hm2⟩
    · rintro ⟨m, hm1, hm2⟩
      rcases List.mem_cons.mp hm1 with rfl | hm1
      · rw [h1] at hm2
        injection hm2 with hm2
        exact hm2 ▸ List.mem_cons_self cs0 l0
      · exact List.mem_cons_of_mem cs0 ((ih h2).mpr ⟨m, hm1, hm2⟩)

/-- One unmapped name aborts the whole translation of a list. -/
theorem translateAll_eq_none {tls_version : TlsVersionEnum} {names : List String} {n : String}
    (hmem : n ∈ names) (hn : translateSuite tls_version n = none) :
    translateAll tls_version names = none := by
  induction names with
  | nil => cases hmem
  | cons m rest ih =>
    rcases List.mem_cons.mp hmem with rfl | hm
    · unfold translateAll
      rw [hn]
      rfl
    · unfold translateAll
      rw [ih hm]
      cases translateSuite tls_version m <;> rfl

/-- Membership in a per-version result set. -/
theorem translateAllSet_eq_some_mem {tls_version : TlsVersionEnum} {names : List String}
    {s : Finset CipherSuite} (h : translateAllSet tls_version names = some s) (cs : CipherSuite) :
    cs ∈ s ↔ ∃ n ∈ names, translateSuite tls_version n = some cs := by
  unfold translateAllSet at h
  rw [Option.map_eq_some'] at h
  obtain ⟨l, h1, h2⟩ := h
  subst h2
  rw [List.mem_toFinset]
  exact translateAll_eq_some_mem h1 cs

/-- One unmapped name aborts the per-version set construction. -/
theorem translateAllSet_eq_none {tls_version : TlsVersionEnum} {names : List String} {n : String}
    (hmem : n ∈ names) (hn : translateSuite tls_version n = none) :
    translateAllSet tls_version names = none := by
  unfold translateAllSet
  rw [translateAll_eq_none hmem hn]
  rfl

/-- The hardcoded TLS 1.3 construction always succeeds and yields exactly
the five explicit records. -/
theorem tls13SetOpt_eq : tls13SetOpt = some tls13Finset := by decide

/-- Inversion of one loop iteration: it requires the previous state and the
three translations to succeed, assigns the version's own entry, then
reassigns the TLS 1.2 and TLS 1.3 entries, and appends its three
enumeration events. -/
theorem buildStep_eq_some {engine : Engine} {st : Option (Catalog × List EnumEvent)}
    {tls_version : TlsVersionEnum} {q : Catalog × List EnumEvent}
    (h : buildStep engine st tls_version = some q) :
    ∃ p s s12 s13, st = some p ∧
      translateAllSet tls_version
        (parse_all_cipher_suites_with_legacy_openssl engine tls_version) = some s ∧
      translateAllSet TlsVersionEnum.TLS_1_2 (tls12RawNames engine) = some s12 ∧
      tls13SetOpt = some s13 ∧
      q.1 = updateCatalog (updateCatalog (updateCatalog p.1 tls_version s)
              TlsVersionEnum.TLS_1_2 s12) TlsVersionEnum.TLS_1_3 s13 ∧
      q.2 = p.2 ++ [⟨tls_version, OpenSslVariant.legacy, selectionString⟩,
                    ⟨TlsVersionEnum.TLS_1_2, OpenSslVariant.legacy, selectionString⟩,
                    ⟨TlsVersionEnum.TLS_1_2, OpenSslVariant.modern, selectionString⟩] := by
  unfold buildStep at h
  rw [Option.bind_eq_some] at h
  obtain ⟨p, hp, h⟩ := h
  rw [Option.bind_eq_some] at h
  obtain ⟨s, hs, h⟩ := h
  rw [Option.bind_eq_some] at h
  obtain ⟨s12, hs12, h⟩ := h
  rw [Option.bind_eq_some] at h
  obtain ⟨s13, hs13, h⟩ := h
  injection h with h
  exact ⟨p, s, s12, s13, hp, hs, hs12, hs13,
         (congrArg Prod.fst h).symm, (congrArg Prod.snd h).symm⟩

/-- Full inversion of a successful catalog build: every per-version
translation succeeded, the catalog maps each version to its translated set
(the classic versions to their legacy enumeration, TLS 1.2 to the filtered
union, TLS 1.3 to the hardcoded set), and the trace is `standardTrace`. -/
theorem parse_all_cipher_suites_inv {engine : Engine} {cat : Catalog} {evs : List EnumEvent}
    (h : parse_all_cipher_suites engine = some (cat, evs)) :
    ∃ s2 s3 s10 s11 s12 s13,
      translateAllSet TlsVersionEnum.SSL_2_0
        (parse_all_cipher_suites_with_legacy_openssl engine TlsVersionEnum.SSL_2_0) = some s2 ∧
      translateAllSet TlsVersionEnum.SSL_3_0
        (parse_all_cipher_suites_with_legacy_openssl engine TlsVersionEnum.SSL_3_0) = some s3 ∧
      translateAllSet TlsVersionEnum.TLS_1_0
        (parse_all_cipher_suites_with_legacy_openssl engine TlsVersionEnum.TLS_1_0) = some s10 ∧
      translateAllSet TlsVersionEnum.TLS_1_1
        (parse_all_cipher_suites_with_legacy_openssl engine TlsVersionEnum.TLS_1_1) = some s11 ∧
      translateAllSet TlsVersionEnum.TLS_1_2 (tls12RawNames engine) = some s12 ∧
      tls13SetOpt = some s13 ∧
      cat TlsVersionEnum.SSL_2_0 = some s2 ∧
      cat TlsVersionEnum.SSL_3_0 = some s3 ∧
      cat TlsVersionEnum.TLS_1_0 = some s10 ∧
      cat TlsVersionEnum.TLS_1_1 = some s11 ∧
      cat TlsVersionEnum.TLS_1_2 = some s12 ∧
      cat TlsVersionEnum.TLS_1_3 = some s13 ∧
      evs = standardTrace := by
  have h4 : buildStep engine (buildStep engine (buildStep engine (buildStep engine
      (some (fun _ => none, [])) TlsVersionEnum.SSL_2_0) TlsVersionEnum.SSL_3_0)
      TlsVersionEnum.TLS_1_0) TlsVersionEnum.TLS_1_1 = some (cat, evs) := h
  obtain ⟨p3, sD, s12d, s13d, hp3, hsD, hs12d, hs13d, hcatD, hevsD⟩ := buildStep_eq_some h4
  obtain ⟨p2, sC, s12c, s13c, hp2, hsC, hs12c, hs13c, hcatC, hevsC⟩ := buildStep_eq_some hp3
  obtain ⟨p1, sB, s12b, s13b, hp1, hsB, hs12b, hs13b, hcatB, hevsB⟩ := buildStep_eq_some hp2
  obtain ⟨p0, sA, s12a, s13a, hp0, hsA, hs12a, hs13a, hcatA, hevsA⟩ := buildStep_eq_some hp1
  injection hp0 with hp0
  dsimp only at hcatD hevsD
  refine ⟨sA, sB, sC, sD, s12d, s13d, hsA, hsB, hsC, hsD, hs12d, hs13d, ?_, ?_, ?_, ?_, ?_, ?_, ?_⟩
  · rw [hcatD, hcatC, hcatB, hcatA, ← hp0]
    rfl
  · rw [hcatD, hcatC, hcatB]
    rfl
  · rw [hcatD, hcatC]
    rfl
  · rw [hcatD]
    rfl
  · rw [hcatD]
    rfl
  · rw [hcatD]
    rfl
  · rw [hevsD, hevsC, hevsB, hevsA, ← hp0]
    rfl

/-- A served lookup comes from a successful build. -/
theorem get_all_eq_some {engine : Engine} {v : TlsVersionEnum} {s : Finset CipherSuite}
    (h : get_all_cipher_suites engine v = some s) :
    ∃ cat evs, parse_all_cipher_suites engine = some (cat, evs) ∧ cat v = some s := by
  unfold get_all_cipher_suites at h
  cases hp : parse_all_cipher_suites engine with
  | none => rw [hp] at h; cases h
  | some p =>
    obtain ⟨cat, evs⟩ := p
    rw [hp] at h
    exact ⟨cat, evs, rfl, h⟩

/-- Every record served for a version is the translation of its own
`openssl_name`, except that the TLS 1.3 entry is the hardcoded set. -/
theorem mem_get_all {engine : Engine} {v : TlsVersionEnum} {s : Finset CipherSuite}
    {cs : CipherSuite} (h : get_all_cipher_suites engine v = some s) (hcs : cs ∈ s) :
    translateSuite v cs.openssl_name = some cs ∨
      (v = TlsVersionEnum.TLS_1_3 ∧ s = tls13Finset) := by
  obtain ⟨cat, evs, hp, hv⟩ := get_all_eq_some h
  obtain ⟨s2, s3, s10, s11, s12, s13, hA, hB, hC, hD, h12, h13, c2, c3, c10, c11, c12, c13, -⟩ :=
    parse_all_cipher_suites_inv hp
  have key : ∀ (w : TlsVersionEnum) (names : List String),
      translateAllSet w names = some s → translateSuite w cs.openssl_name = some cs := by
    intro w names hw
    obtain ⟨n, -, hn⟩ := (translateAllSet_eq_some_mem hw cs).mp hcs
    obtain ⟨tbl, r, ks, -, -, -, hcs_eq⟩ := translateSuite_eq_some hn
    have hoss : cs.openssl_name = n := by rw [hcs_eq]
    rw [hoss]
    exact hn
  cases v with
  | SSL_2_0 =>
    rw [hv] at c2
    injection c2 with c2
    exact Or.inl (key _ _ (c2 ▸ hA))
  | SSL_3_0 =>
    rw [hv] at c3
    injection c3 with c3
    exact Or.inl (key _ _ (c3 ▸ hB))
  | TLS_1_0 =>
    rw [hv] at c10
    injection c10 with c10
    exact Or.inl (key _ _ (c10 ▸ hC))
  | TLS_1_1 =>
    rw [hv] at c11
    injection c11 with c11
    exact Or.inl (key _ _ (c11 ▸ hD))
  | TLS_1_2 =>
    rw [hv] at c12
    injection c12 with c12
    exact Or.inl (key _ _ (c12 ▸ h12))
  | TLS_1_3 =>
    rw [hv] at c13
    injection c13 with c13
    rw [tls13SetOpt_eq] at h13
    injection h13 with h13
    exact Or.inr ⟨rfl, by rw [c13, ← h13]⟩

/-- No value of the shared TLS table is one of the five TLS 1.3 names. -/
theorem tls_values_not_tls13 : ∀ p ∈ TLS_OPENSSL_TO_RFC_NAMES_MAPPING,
    p.2 ∉ TLS_1_3_CIPHER_SUITES := by decide

/-- Every key size recorded in the global table is one of the seven values. -/
theorem key_size_values : ∀ p ∈ RFC_NAME_TO_KEY_SIZE_MAPPING,
    p.2 ∈ [0, 40, 56, 64, 128, 168, 256] := by decide

/-- No canonical name in the SSLv2 table carries the anonymity marker. -/
theorem sslv2_values_not_anon : ∀ p ∈ SSLV2_OPENSSL_TO_RFC_NAMES_MAPPING,
    strContainsAnon p.2 = false := by decide

/-- Key sizes recorded for canonical names of the SSLv2 table: never 256,
always among the six SSLv2 values (including 0, for the NULL cipher). -/
theorem sslv2_key_sizes : ∀ q ∈ RFC_NAME_TO_KEY_SIZE_MAPPING,
    (∃ p ∈ SSLV2_OPENSSL_TO_RFC_NAMES_MAPPING, q.1 = p.2) →
    q.2 ≠ 256 ∧ q.2 ∈ [0, 40, 56, 64, 128, 168] := by decide

/-- Pointwise facts about the five hardcoded TLS 1.3 records. -/
theorem tls13Finset_props : ∀ cs ∈ tls13Finset,
    cs.openssl_name = cs.name ∧ cs.is_anonymous = false ∧
    RFC_NAME_TO_KEY_SIZE_MAPPING.lookup cs.name = some cs.key_size ∧
    strContainsAnon cs.name = false ∧ cs.key_size ∈ [0, 40, 56, 64, 128, 168, 256] ∧
    cs.name ∈ TLS_1_3_CIPHER_SUITES := by decide

/-- Within the hardcoded TLS 1.3 set the native name determines the record. -/
theorem tls13Finset_inj : ∀ cs1 ∈ tls13Finset, ∀ cs2 ∈ tls13Finset,
    cs1.openssl_name = cs2.openssl_name → cs1 = cs2 := by decide

/-- Concrete evaluation: the empty engine builds, and its TLS 1.3 entry is
the hardcoded set. -/
theorem engineEmpty_tls13 :
    get_all_cipher_suites engineEmpty TlsVersionEnum.TLS_1_3 = some tls13Finset := by decide

/-- Concrete evaluation: the SSLv3 set built from `engineW`. -/
theorem engineW_ssl3 :
    get_all_cipher_suites engineW TlsVersionEnum.SSL_3_0 = some sW3 := by decide

/-- Concrete evaluation: the TLS 1.2 set built from `engineW`. -/
theorem engineW_tls12 :
    get_all_cipher_suites engineW TlsVersionEnum.TLS_1_2 = some s12W := by decide

/-- One iteration returns nothing when the translation of its own version's
enumeration fails. -/
theorem buildStep_none_of_fail {engine : Engine} {v : TlsVersionEnum}
    (hfail : translateAllSet v (parse_all_cipher_suites_with_legacy_openssl engine v) = none)
    (st : Option (Catalog × List EnumEvent)) : buildStep engine st v = none := by
  cases st with
  | none => rfl
  | some p =>
    unfold buildStep
    rw [hfail]
    rfl

/-- One iteration returns nothing when the TLS 1.2 translation fails,
whatever its own version is. -/
theorem buildStep_none_of_fail12 {engine : Engine}
    (hfail : translateAllSet TlsVersionEnum.TLS_1_2 (tls12RawNames engine) = none)
    (st : Option (Catalog × List EnumEvent)) (v : TlsVersionEnum) :
    buildStep engine st v = none := by
  cases st with
  | none => rfl
  | some p =>
    unfold buildStep
    cases translateAllSet v (parse_all_cipher_suites_with_legacy_openssl engine v) with
    | none => rfl
    | some s =>
      rw [hfail]
      rfl

/-- C1: the TLS 1.3 entry of every successfully built catalog is exactly the
five hardcoded records; each has `openssl_name` equal to `name`,
`is_anonymous` false and the key size the global table assigns (128 for
TLS_AES_128_GCM_SHA256, 256 for TLS_CHACHA20_POLY1305_SHA256); and no engine
enumeration in the build trace targets TLS 1.3. -/
theorem C1_tls13_catalog_entry (engine : Engine) (s : Finset CipherSuite)
    (h : get_all_cipher_suites engine TlsVersionEnum.TLS_1_3 = some s) :
    s = tls13Finset ∧
    (∀ cs ∈ s, cs.openssl_name = cs.name ∧ cs.is_anonymous = false ∧
      RFC_NAME_TO_KEY_SIZE_MAPPING.lookup cs.name = some cs.key_size) ∧
    (∀ cs ∈ s, cs.name = "TLS_AES_128_GCM_SHA256" → cs.key_size = 128) ∧
    (∀ cs ∈ s, cs.name = "TLS_CHACHA20_POLY1305_SHA256" → cs.key_size = 256) ∧
    (∀ evl, enumerationEvents engine = some evl →
      ∀ e ∈ evl, e.version ≠ TlsVersionEnum.TLS_1_3) := by
  obtain ⟨cat, evs, hp, hv⟩ := get_all_eq_some h
  obtain ⟨s2, s3, s10, s11, s12, s13, hA, hB, hC, hD, h12, h13, c2, c3, c10, c11, c12, c13,
    hevs⟩ := parse_all_cipher_suites_inv hp
  rw [hv] at c13
  injection c13 with c13
  rw [tls13SetOpt_eq] at h13
  injection h13 with h13
  have hs : s = tls13Finset := by rw [c13, ← h13]
  subst hs
  refine ⟨rfl, ?_, by decide, by decide, ?_⟩
  · intro cs hcs
    have hprops := tls13Finset_props cs hcs
    exact ⟨hprops.1, hprops.2.1, hprops.2.2.1⟩
  · intro evl hevl
    unfold enumerationEvents at hevl
    rw [hp] at hevl
    simp only [Option.map_some'] at hevl
    injection hevl with hevl
    rw [← hevl, hevs]
    decide

/-- C1 witness: the theorem applied to the empty engine. -/
theorem C1_witness :
    get_all_cipher_suites engineEmpty TlsVersionEnum.TLS_1_3 = some tls13Finset ∧
    tls13Finset = tls13Finset :=
  ⟨engineEmpty_tls13, (C1_tls13_catalog_entry engineEmpty tls13Finset engineEmpty_tls13).1⟩

/-- C2: the TLS 1.2 entry of every successfully built catalog consists of
exactly the translations of the native names returned by the legacy or the
modern client for TLS 1.2 (both queried with the fixed selection string)
that are not in the hardcoded TLS 1.3 name list; consequently no member's
canonical name is a TLS 1.3 name. -/
theorem C2_tls12_union_filter (engine : Engine) (s12 : Finset CipherSuite)
    (h : get_all_cipher_suites engine TlsVersionEnum.TLS_1_2 = some s12) :
    (∀ cs, cs ∈ s12 ↔ ∃ n,
      (n ∈ engine TlsVersionEnum.TLS_1_2 OpenSslVariant.legacy selectionString ∨
        n ∈ engine TlsVersionEnum.TLS_1_2 OpenSslVariant.modern selectionString) ∧
      n ∉ TLS_1_3_CIPHER_SUITES ∧
      translateSuite TlsVersionEnum.TLS_1_2 n = some cs) ∧
    ∀ cs ∈ s12, cs.name ∉ TLS_1_3_CIPHER_SUITES := by
  obtain ⟨cat, evs, hp, hv⟩ := get_all_eq_some h
  obtain ⟨s2, s3, s10, s11, s12x, s13, hA, hB, hC, hD, h12, h13, c2, c3, c10, c11, c12, c13,
    hevs⟩ := parse_all_cipher_suites_inv hp
  rw [hv] at c12
  injection c12 with c12
  subst c12
  constructor
  · intro cs
    rw [translateAllSet_eq_some_mem h12 cs]
    unfold tls12RawNames parse_all_cipher_suites_with_legacy_openssl
    constructor
    · rintro ⟨n, hn1, hn2⟩
      rw [List.mem_filter] at hn1
      obtain ⟨hn1, hfilt⟩ := hn1
      rw [List.mem_append] at hn1
      exact ⟨n, hn1, by simpa using hfilt, hn2⟩
    · rintro ⟨n, hn1, hn2, hn3⟩
      refine ⟨n, ?_, hn3⟩
      rw [List.mem_filter, List.mem_append]
      exact ⟨hn1, by simpa using hn2⟩
  · intro cs hcs
    obtain ⟨n, -, hn⟩ := (translateAllSet_eq_some_mem h12 cs).mp hcs
    obtain ⟨tbl, r, ks, htbl, h2, -, hcs_eq⟩ := translateSuite_eq_some hn
    injection htbl with htbl
    rw [← htbl] at h2
    have := tls_values_not_tls13 (n, r) (lookup_mem h2)
    rw [hcs_eq]
    exact this

/-- C2 witness: the theorem applied to `engineW`, whose modern client
reports one TLS 1.3 name for TLS 1.2; the built set keeps only the two real
TLS 1.2 suites and their names avoid the TLS 1.3 list. -/
theorem C2_witness :
    get_all_cipher_suites engineW TlsVersionEnum.TLS_1_2 = some s12W ∧
    csGCM ∈ s12W ∧ csGCM.name ∉ TLS_1_3_CIPHER_SUITES :=
  ⟨engineW_tls12, by decide,
   (C2_tls12_union_filter engineW s12W engineW_tls12).2 csGCM (by decide)⟩

/-- C3 counterexample: the SSLv2 native name "NULL-MD5" is in the SSLv2
table and translates to the NULL cipher suite with key size 0, which is not
in the claimed set of five values. -/
theorem C3_counterexample :
    translateSuite TlsVersionEnum.SSL_2_0 "NULL-MD5" =
      some { name := "TLS_RSA_WITH_NULL_MD5", openssl_name := "NULL-MD5",
             is_anonymous := false, key_size := 0 } ∧
    (0 : Nat) ∉ [40, 56, 64, 128, 168] := by decide

/-- C3 amended: every successful SSLv2 translation is non-anonymous, never
has key size 256, and its key size lies in the six-element set that includes
0 (for the NULL-MD5 suite). -/
theorem C3_amended_sslv2 (n : String) (cs : CipherSuite)
    (h : translateSuite TlsVersionEnum.SSL_2_0 n = some cs) :
    cs.is_anonymous = false ∧ cs.key_size ≠ 256 ∧
    cs.key_size ∈ [0, 40, 56, 64, 128, 168] := by
  obtain ⟨tbl, r, ks, htbl, h2, h3, hcs_eq⟩ := translateSuite_eq_some h
  injection htbl with htbl
  rw [← htbl] at h2
  have hanon := sslv2_values_not_anon (n, r) (lookup_mem h2)
  have hks := sslv2_key_sizes (r, ks) (lookup_mem h3) ⟨(n, r), lookup_mem h2, rfl⟩
  rw [hcs_eq]
  exact ⟨hanon, hks.1, hks.2⟩

/-- C3 witness: the amended theorem applied to the SSLv2 name "RC4-MD5". -/
theorem C3_witness :
    translateSuite TlsVersionEnum.SSL_2_0 "RC4-MD5" = some csRC4 ∧
    (csRC4.is_anonymous = false ∧ csRC4.key_size ≠ 256 ∧
      csRC4.key_size ∈ [0, 40, 56, 64, 128, 168]) :=
  ⟨by decide, C3_amended_sslv2 "RC4-MD5" csRC4 (by decide)⟩

/-- C4 counterexample: with an engine that returns both native spellings
"EDH-RSA-DES-CBC3-SHA" and "DHE-RSA-DES-CBC3-SHA" for SSLv3, the built SSLv3
set holds two distinct records with the same canonical name, because the
container is a set of whole records. -/
theorem C4_counterexample :
    get_all_cipher_suites engineW TlsVersionEnum.SSL_3_0 = some sW3 ∧
    csEDH ∈ sW3 ∧ csDHE ∈ sW3 ∧ csEDH ≠ csDHE ∧ csEDH.name = csDHE.name :=
  ⟨engineW_ssl3, by decide, by decide, by decide, rfl⟩

/-- C4 amended: within one version's built set the native name is the unique
key: two member records with the same `openssl_name` are the same record.
Canonical names may repeat, but only across different native spellings. -/
theorem C4_amended_unique_native (engine : Engine) (v : TlsVersionEnum)
    (s : Finset CipherSuite) (cs1 cs2 : CipherSuite)
    (h : get_all_cipher_suites engine v = some s) (h1 : cs1 ∈ s) (h2 : cs2 ∈ s)
    (hoss : cs1.openssl_name = cs2.openssl_name) : cs1 = cs2 := by
  rcases mem_get_all h h1 with ht1 | ⟨hv, hs⟩
  · rcases mem_get_all h h2 with ht2 | ⟨hv, hs⟩
    · rw [hoss, ht2] at ht1
      injection ht1 with ht1
      exact ht1.symm
    · subst hv
      have : translateSuite TlsVersionEnum.TLS_1_3 cs1.openssl_name = none := rfl
      rw [this] at ht1
      cases ht1
  · subst hv
    subst hs
    exact tls13Finset_inj cs1 h1 cs2 h2 hoss

/-- C4 witness: the amended theorem applied to a concrete member of the
SSLv3 set built from `engineW`. -/
theorem C4_witness :
    get_all_cipher_suites engineW TlsVersionEnum.SSL_3_0 = some sW3 ∧
    csEDH ∈ sW3 ∧ csEDH = csEDH :=
  ⟨engineW_ssl3, by decide,
   C4_amended_unique_native engineW TlsVersionEnum.SSL_3_0 sW3 csEDH csEDH
     engineW_ssl3 (by decide) (by decide) rfl⟩

/-- C5 counterexample: "TLS_FALLBACK_SCSV" is a value of the shared TLS
table (mapped from the native name "TLS_FALLBACK_SCSV") but has no entry in
the key-size table, so its translation misses the key-size lookup. -/
theorem C5_counterexample :
    TLS_OPENSSL_TO_RFC_NAMES_MAPPING.lookup "TLS_FALLBACK_SCSV" =
      some "TLS_FALLBACK_SCSV" ∧
    RFC_NAME_TO_KEY_SIZE_MAPPING.lookup "TLS_FALLBACK_SCSV" = none ∧
    translateSuite TlsVersionEnum.TLS_1_2 "TLS_FALLBACK_SCSV" = none := by decide

/-- C5 amended: every value of the SSLv2 table and every TLS 1.3 name has a
key-size entry, but not every value of the shared TLS table does:
TLS_FALLBACK_SCSV is a value of the TLS table (mapped from the native name
TLS_FALLBACK_SCSV) with no key-size entry. -/
theorem C5_amended_coverage :
    (∀ p ∈ SSLV2_OPENSSL_TO_RFC_NAMES_MAPPING,
      (RFC_NAME_TO_KEY_SIZE_MAPPING.lookup p.2).isSome = true) ∧
    (∀ n ∈ TLS_1_3_CIPHER_SUITES,
      (RFC_NAME_TO_KEY_SIZE_MAPPING.lookup n).isSome = true) ∧
    ("TLS_FALLBACK_SCSV", "TLS_FALLBACK_SCSV") ∈ TLS_OPENSSL_TO_RFC_NAMES_MAPPING ∧
    RFC_NAME_TO_KEY_SIZE_MAPPING.lookup "TLS_FALLBACK_SCSV" = none := by decide

/-- C6: a served suite is flagged anonymous exactly when its canonical name
contains the substring "anon", for every engine, version and member. -/
theorem C6_is_anonymous_iff (engine : Engine) (v : TlsVersionEnum)
    (s : Finset CipherSuite) (cs : CipherSuite)
    (h : get_all_cipher_suites engine v = some s) (hcs : cs ∈ s) :
    cs.is_anonymous = true ↔ strContainsAnon cs.name = true := by
  rcases mem_get_all h hcs with htr | ⟨-, hs⟩
  · obtain ⟨tbl, r, ks, -, -, -, hcs_eq⟩ := translateSuite_eq_some htr
    rw [hcs_eq]
  · subst hs
    have hprops := tls13Finset_props cs hcs
    rw [hprops.2.1, hprops.2.2.2.1]

/-- C6 witness: the theorem applied to the anonymous DH suite and to the
plain RSA suite that `engineW` produces for SSLv3. -/
theorem C6_witness :
    get_all_cipher_suites engineW TlsVersionEnum.SSL_3_0 = some sW3 ∧
    csADH ∈ sW3 ∧ csAES ∈ sW3 ∧
    (csADH.is_anonymous = true ↔ strContainsAnon csADH.name = true) ∧
    (csAES.is_anonymous = true ↔ strContainsAnon csAES.name = true) :=
  ⟨engineW_ssl3, by decide, by decide,
   C6_is_anonymous_iff engineW TlsVersionEnum.SSL_3_0 sW3 csADH engineW_ssl3 (by decide),
   C6_is_anonymous_iff engineW TlsVersionEnum.SSL_3_0 sW3 csAES engineW_ssl3 (by decide)⟩

/-- C7: a translation fails exactly when the native name is missing from the
version's table or the canonical name is missing from the key-size table;
and any such failure on an enumerated name makes the whole build fail, so
no version at all is served (in particular no silently empty set). -/
theorem C7_mapping_error :
    (∀ (v : TlsVersionEnum) (tbl : List (String × String)) (n : String),
      OPENSSL_TO_RFC_NAMES_MAPPING v = some tbl →
      (translateSuite v n = none ↔
        tbl.lookup n = none ∨
        ∃ r, tbl.lookup n = some r ∧ RFC_NAME_TO_KEY_SIZE_MAPPING.lookup r = none)) ∧
    (∀ (engine : Engine) (v : TlsVersionEnum) (n : String), v ∈ classicVersions →
      n ∈ parse_all_cipher_suites_with_legacy_openssl engine v →
      translateSuite v n = none →
      ∀ w, get_all_cipher_suites engine w = none) ∧
    (∀ (engine : Engine) (n : String), n ∈ tls12RawNames engine →
      translateSuite TlsVersionEnum.TLS_1_2 n = none →
      ∀ w, get_all_cipher_suites engine w = none) := by
  refine ⟨?_, ?_, ?_⟩
  · intro v tbl n htbl
    unfold translateSuite
    rw [htbl]
    simp only [Option.some_bind]
    cases hl : tbl.lookup n with
    | none =>
      simp only [Option.none_bind]
      exact iff_of_true trivial (Or.inl trivial)
    | some r =>
      simp only [Option.some_bind]
      cases hk : RFC_NAME_TO_KEY_SIZE_MAPPING.lookup r with
      | none =>
        simp only [Option.map_none']
        exact iff_of_true trivial (Or.inr ⟨r, rfl, hk⟩)
      | some ks =>
        simp only [Option.map_some']
        refine iff_of_false (by simp) ?_
        rintro (hc | ⟨r2, hr2, hk2⟩)
        · cases hc
        · injection hr2 with hr2
          subst hr2
          rw [hk] at hk2
          cases hk2
  · intro engine v n hv hn ht w
    have hfail := translateAllSet_eq_none hn ht
    have hp : parse_all_cipher_suites engine = none := by
      have hmem : v = TlsVersionEnum.SSL_2_0 ∨ v = TlsVersionEnum.SSL_3_0 ∨
          v = TlsVersionEnum.TLS_1_0 ∨ v = TlsVersionEnum.TLS_1_1 := by
        simpa [classicVersions] using hv
      unfold parse_all_cipher_suites classicVersions
      simp only [List.foldl_cons, List.foldl_nil]
      rcases hmem with rfl | rfl | rfl | rfl
      · rw [buildStep_none_of_fail hfail]
        rfl
      · rw [buildStep_none_of_fail hfail]
        rfl
      · rw [buildStep_none_of_fail hfail]
        rfl
      · rw [buildStep_none_of_fail hfail]
    unfold get_all_cipher_suites
    rw [hp]
  · intro engine n hn ht w
    have hfail := translateAllSet_eq_none hn ht
    have hp : parse_all_cipher_suites engine = none := by
      unfold parse_all_cipher_suites classicVersions
      simp only [List.foldl_cons, List.foldl_nil]
      rw [buildStep_none_of_fail12 hfail]
    unfold get_all_cipher_suites
    rw [hp]

/-- C7 witness: the translation of the uncatalogued name "BOGUS" fails by
the characterization, and an engine reporting it for SSLv2 makes every
lookup fail, including the TLS 1.3 one. -/
theorem C7_witness :
    translateSuite TlsVersionEnum.SSL_2_0 "BOGUS" = none ∧
    get_all_cipher_suites engineBad TlsVersionEnum.TLS_1_3 = none :=
  ⟨(C7_mapping_error.1 TlsVersionEnum.SSL_2_0 SSLV2_OPENSSL_TO_RFC_NAMES_MAPPING "BOGUS"
      rfl).mpr (Or.inl (by decide)),
   C7_mapping_error.2.1 engineBad TlsVersionEnum.SSL_2_0 "BOGUS" (by decide) (by decide)
     (by decide) TlsVersionEnum.TLS_1_3⟩

/-- C8: trace of the code as written: because the TLS 1.2 and TLS 1.3 blocks
are indented inside the loop over the four classic versions, one build with
the empty engine enumerates TLS 1.2 four times per variant and rebuilds the
TLS 1.3 set on every iteration, while each classic version is enumerated
once; the full trace is `standardTrace`. -/
theorem C8_enumeration_counts :
    enumerationEvents engineEmpty = some standardTrace ∧
    standardTrace.countP (fun e => decide (e.version = TlsVersionEnum.TLS_1_2 ∧
      e.variant = OpenSslVariant.legacy)) = 4 ∧
    standardTrace.countP (fun e => decide (e.version = TlsVersionEnum.TLS_1_2 ∧
      e.variant = OpenSslVariant.modern)) = 4 ∧
    standardTrace.countP (fun e => decide (e.version = TlsVersionEnum.SSL_2_0)) = 1 ∧
    standardTrace.countP (fun e => decide (e.version = TlsVersionEnum.SSL_3_0)) = 1 ∧
    standardTrace.countP (fun e => decide (e.version = TlsVersionEnum.TLS_1_0)) = 1 ∧
    standardTrace.countP (fun e => decide (e.version = TlsVersionEnum.TLS_1_1)) = 1 := by
  decide

/-- C9: the build is a deterministic function of the engine's answers for
the fixed selection string: engines agreeing there yield identical catalogs,
so repeated builds and repeated accessor calls are set-equal per version. -/
theorem C9_build_deterministic (e1 e2 : Engine)
    (hagree : ∀ v variant, e1 v variant selectionString = e2 v variant selectionString) :
    ∀ v, get_all_cipher_suites e1 v = get_all_cipher_suites e2 v := by
  have hb : ∀ st w, buildStep e1 st w = buildStep e2 st w := by
    intro st w
    unfold buildStep translateAllSet tls12RawNames parse_all_cipher_suites_with_legacy_openssl
    simp only [hagree]
  intro v
  unfold get_all_cipher_suites parse_all_cipher_suites
  simp only [classicVersions, List.foldl_cons, List.foldl_nil, hb]

/-- C9 witness: the theorem applied to two copies of the empty engine. -/
theorem C9_witness :
    get_all_cipher_suites engineEmpty TlsVersionEnum.SSL_3_0 =
      get_all_cipher_suites engineEmpty TlsVersionEnum.SSL_3_0 :=
  C9_build_deterministic engineEmpty engineEmpty (fun _ _ => rfl) TlsVersionEnum.SSL_3_0

/-- C10: every suite served for any version by any successfully built
catalog has one of the seven key sizes of the global table. -/
theorem C10_key_sizes (engine : Engine) (v : TlsVersionEnum) (s : Finset CipherSuite)
    (cs : CipherSuite) (h : get_all_cipher_suites engine v = some s) (hcs : cs ∈ s) :
    cs.key_size ∈ [0, 40, 56, 64, 128, 168, 256] := by
  rcases mem_get_all h hcs with htr | ⟨-, hs⟩
  · obtain ⟨tbl, r, ks, -, -, h3, hcs_eq⟩ := translateSuite_eq_some htr
    have hv := key_size_values (r, ks) (lookup_mem h3)
    rw [hcs_eq]
    exact hv
  · subst hs
    exact (tls13Finset_props cs hcs).2.2.2.2.1

/-- C10 witness: the theorem applied to the 256-bit suite of the TLS 1.2
set built from `engineW`. -/
theorem C10_witness :
    get_all_cipher_suites engineW TlsVersionEnum.TLS_1_2 = some s12W ∧
    csECDHE ∈ s12W ∧ csECDHE.key_size ∈ [0, 40, 56, 64, 128, 168, 256] :=
  ⟨engineW_tls12, by decide,
   C10_key_sizes engineW TlsVersionEnum.TLS_1_2 s12W csECDHE engineW_tls12 (by decide)⟩
